import Mathlib

/-!
# Ralink MT7620A PCIe root complex: bring-up and configuration access

A shallow embedding of `arch/mips/pci/pci-mt7620a.c`.

The driver talks to three register windows (bridge, PCIe subsystem, system
controller), a reset line and a delay primitive.  Every interaction with the
outside world is recorded as an `Event`; the state threaded through the C
functions is the history of events, newest first.  The value a register read
returns is decided by the device, modelled as an arbitrary function `Hw` of
the history so far: a register may be volatile (busy flag, PLL lock, link
status) and the driver cannot tell.

Machine integers are natural numbers, reduced modulo `2 ^ 32` wherever the C
code stores into a `u32`.
-/

namespace MT7620A

/-! ## Constants of the source file -/

def RALINK_PCI_IO_MAP_BASE : Nat := 0x10160000
def RALINK_INT_PCIE0 : Nat := 4
def RALINK_SYSCFG1 : Nat := 0x14
def RALINK_CLKCFG1 : Nat := 0x30
def RALINK_GPIOMODE : Nat := 0x60
def RALINK_PCIE_CLK_GEN : Nat := 0x7c
def RALINK_PCIE_CLK_GEN1 : Nat := 0x80
def PCIEPHY0_CFG : Nat := 0x90
def PPLL_CFG1 : Nat := 0x9c
def PPLL_DRV : Nat := 0xa0
def PDRV_SW_SET : Nat := 1 <<< 31
def LC_CKDRVPD_ : Nat := 1 <<< 19
def RALINK_PCI_CONFIG_ADDR : Nat := 0x20
def RALINK_PCI_CONFIG_DATA_VIRTUAL_REG : Nat := 0x24
def MEMORY_BASE : Nat := 0x0
def RALINK_PCI_MEMBASE : Nat := 0x28
def RALINK_PCI_IOBASE : Nat := 0x2C
def RALINK_PCI_PCICFG_ADDR : Nat := 0x00
def RALINK_PCI0_BAR0SETUP_ADDR : Nat := 0x10
def RALINK_PCI0_IMBASEBAR0_ADDR : Nat := 0x18
def RALINK_PCI0_ID : Nat := 0x30
def RALINK_PCI0_CLASS : Nat := 0x34
def RALINK_PCI0_SUBID : Nat := 0x38
def RALINK_PCI0_STATUS : Nat := 0x50
def RALINK_PCI_PCIMSK_ADDR : Nat := 0x0C
def RALINK_PCIE0_CLK_EN : Nat := 1 <<< 26
def BUSY : Nat := 0x80000000
def WAITRETRY_MAX : Nat := 10
def WRITE_MODE : Nat := 1 <<< 23
def DATA_SHIFT : Nat := 0
def ADDR_SHIFT : Nat := 8

/-- Modelled from the spec: the kernel helper `BIT(n)` of `linux/bitops.h`,
absent from the sources; a single set bit. -/
def BIT (n : Nat) : Nat := 1 <<< n

/-- Modelled from the spec: `PCIBIOS_SUCCESSFUL` of `linux/pci.h`, the bus
framework's fixed "operation completed" code. -/
def PCIBIOS_SUCCESSFUL : Int := 0

/-- Modelled from the spec: `ENOMEM` of the kernel's errno table, the
allocation error reported when a register window cannot be mapped. -/
def ENOMEM : Int := 12

/-- Modelled from the spec: offset of the command register in the standard
PCI configuration header (`linux/pci_regs.h`, absent from the sources). -/
def PCI_COMMAND : Nat := 0x04

/-- Modelled from the spec: the I/O-enable bit of the command register. -/
def PCI_COMMAND_IO : Nat := 0x1

/-- Modelled from the spec: the memory-enable bit of the command register. -/
def PCI_COMMAND_MEMORY : Nat := 0x2

/-- Modelled from the spec: the bus-master bit of the command register. -/
def PCI_COMMAND_MASTER : Nat := 0x4

/-- Modelled from the spec: offset of the cache-line-size register. -/
def PCI_CACHE_LINE_SIZE : Nat := 0x0c

/-- Modelled from the spec: offset of the latency-timer register. -/
def PCI_LATENCY_TIMER : Nat := 0x0d

/-- Modelled from the spec: offset of the first base-address register, the
BAR0 target. -/
def PCI_BASE_ADDRESS_0 : Nat := 0x10

/-- Modelled from the spec: offset of the interrupt-line register. -/
def PCI_INTERRUPT_LINE : Nat := 0x3c

/-- Modelled from the spec: the `PCI_SLOT` helper of `linux/pci.h`, the device
number held in bits 3..7 of a devfn. -/
def PCI_SLOT (devfn : Nat) : Nat := (devfn >>> 3) &&& 0x1f

/-- Modelled from the spec: the `PCI_FUNC` helper of `linux/pci.h`, the
function number held in bits 0..2 of a devfn. -/
def PCI_FUNC (devfn : Nat) : Nat := devfn &&& 0x07

/-! ## Machine words -/

/-- Truncation of a value stored into a `u32`. -/
def u32 (x : Nat) : Nat := x % 2 ^ 32

/-- The C operator `~` on a 32-bit operand. -/
def not32 (x : Nat) : Nat := 0xFFFFFFFF ^^^ (x % 2 ^ 32)

/-! ## The outside world -/

/-- The three register windows the driver touches. -/
inductive Win where
  | bridge
  | pcie
  | sysc
  deriving DecidableEq, Repr

/-- One interaction of the driver with the outside world. -/
inductive Event where
  | rd (w : Win) (reg : Nat) (val : Nat)
  | wr (w : Win) (reg : Nat) (val : Nat)
  | mdelay (n : Nat)
  | reset_assert
  | reset_deassert
  | printk (msg : String)
  | register_pci_controller
  deriving DecidableEq, Repr

/-- History of interactions, newest first. -/
abbrev Trace := List Event

/-- The device: the value a 32-bit register read returns after a history. -/
abbrev Hw := Trace → Win → Nat → Nat

/-- Modelled from the spec: `ioread32` of the register I/O backend, a 32-bit
read of one register of a window; the read is recorded with its value. -/
def ioread32 (hw : Hw) (w : Win) (reg : Nat) (t : Trace) : Nat × Trace :=
  (u32 (hw t w reg), Event.rd w reg (u32 (hw t w reg)) :: t)

/-- Modelled from the spec: `iowrite32` of the register I/O backend, a 32-bit
write of one register of a window. -/
def iowrite32 (val : Nat) (w : Win) (reg : Nat) (t : Trace) : Trace :=
  Event.wr w reg (u32 val) :: t

/-- Modelled from the spec: the millisecond busy-wait `mdelay`. -/
def mdelay (n : Nat) (t : Trace) : Trace := Event.mdelay n :: t

/-- Modelled from the spec: `printk`, the kernel log. -/
def printk (msg : String) (t : Trace) : Trace := Event.printk msg :: t

/-- Modelled from the spec: `reset_control_assert` on the "pcie0" line. -/
def reset_control_assert (t : Trace) : Trace := Event.reset_assert :: t

/-- Modelled from the spec: `reset_control_deassert` on the "pcie0" line. -/
def reset_control_deassert (t : Trace) : Trace := Event.reset_deassert :: t

/-- Modelled from the spec: `register_pci_controller`, the hand-over of the
controller descriptor to the bus-enumeration framework. -/
def register_pci_controller (t : Trace) : Trace := Event.register_pci_controller :: t

/-- Modelled from the spec: `rt_sysc_r32` of `ralink_regs.h`, a read of a
system-controller register. -/
def rt_sysc_r32 (hw : Hw) (reg : Nat) (t : Trace) : Nat × Trace :=
  ioread32 hw Win.sysc reg t

/-- Modelled from the spec: `rt_sysc_w32` of `ralink_regs.h`, a write of a
system-controller register. -/
def rt_sysc_w32 (val : Nat) (reg : Nat) (t : Trace) : Trace :=
  iowrite32 val Win.sysc reg t

/-- Modelled from the spec: `rt_sysc_m32` of `ralink_regs.h`, the bitmask
read-modify-write `modify(clear_mask, set_mask, register)` on the system
controller: read, clear the bits of `clr`, set the bits of `set`, write back. -/
def rt_sysc_m32 (hw : Hw) (clr set reg : Nat) (t : Trace) : Trace :=
  let r := rt_sysc_r32 hw reg t
  let val := r.1 &&& not32 clr
  rt_sysc_w32 (val ||| u32 set) reg r.2

/-! ## Register access shim (source lines 84-110) -/

def bridge_w32 (val : Nat) (reg : Nat) (t : Trace) : Trace :=
  iowrite32 val Win.bridge reg t

def bridge_r32 (hw : Hw) (reg : Nat) (t : Trace) : Nat × Trace :=
  ioread32 hw Win.bridge reg t

def pcie_w32 (val : Nat) (reg : Nat) (t : Trace) : Trace :=
  iowrite32 val Win.pcie reg t

def pcie_r32 (hw : Hw) (reg : Nat) (t : Trace) : Nat × Trace :=
  ioread32 hw Win.pcie reg t

def pcie_m32 (hw : Hw) (clr set reg : Nat) (t : Trace) : Trace :=
  let r := pcie_r32 hw reg t
  let val := r.1
  let val := val &&& not32 clr
  let val := val ||| u32 set
  pcie_w32 val reg r.2

/-! ## PHY calibration unit (source lines 112-138) -/

/-- The `while (1)` loop of `wait_pciephy_busy`, entered with the current value
of the local `retry`.  The loop leaves through `break` (result 0) or through
the `return -1` guarded by `retry++ > WAITRETRY_MAX`. -/
def wait_pciephy_busy_loop (hw : Hw) (retry : Nat) (t : Trace) : Int × Trace :=
  let r := pcie_r32 hw PCIEPHY0_CFG t
  let reg_value := r.1
  if reg_value &&& BUSY ≠ 0 then
    let t1 := mdelay 100 r.2
    if retry > WAITRETRY_MAX then
      (-1, printk "PCIE-PHY retry failed.\n" t1)
    else
      wait_pciephy_busy_loop hw (retry + 1) t1
  else
    (0, r.2)
termination_by WAITRETRY_MAX + 1 - retry
decreasing_by
  simp only [WAITRETRY_MAX] at *
  omega

def wait_pciephy_busy (hw : Hw) (t : Trace) : Int × Trace :=
  wait_pciephy_busy_loop hw 0 t

def pcie_phy (hw : Hw) (addr val : Nat) (t : Trace) : Trace :=
  let t := (wait_pciephy_busy hw t).2
  let t := pcie_w32 (WRITE_MODE ||| (val <<< DATA_SHIFT) ||| (addr <<< ADDR_SHIFT)) PCIEPHY0_CFG t
  let t := mdelay 1 t
  (wait_pciephy_busy hw t).2

/-! ## Configuration-space access protocol (source lines 140-194) -/

/-- The part of `struct pci_bus` the driver reads: the bus number, an
`unsigned char`. -/
structure pci_bus where
  number : Nat
  deriving DecidableEq, Repr

/-- Result of `pci_config_read`: the status code, the contents of `*val` after
the call and the history. -/
structure ReadResult where
  status : Int
  val : Nat
  trace : Trace

/-- `pci_config_read`; `val0` is the content of `*val` before the call, which
the `switch` leaves in place for a size other than 1, 2 and 4. -/
def pci_config_read (hw : Hw) (bus : pci_bus) (devfn where_ size : Nat) (val0 : Nat)
    (t : Trace) : ReadResult :=
  let slot := PCI_SLOT devfn
  let func := PCI_FUNC devfn % 2 ^ 8
  let address := u32 ((((where_ &&& 0xF00) >>> 8) <<< 24) ||| (bus.number <<< 16) |||
    (slot <<< 11) ||| (func <<< 8) ||| (where_ &&& 0xfc) ||| 0x80000000)
  let t := bridge_w32 address RALINK_PCI_CONFIG_ADDR t
  let r := bridge_r32 hw RALINK_PCI_CONFIG_DATA_VIRTUAL_REG t
  let data := r.1
  let val :=
    if size = 1 then (data >>> ((where_ &&& 3) <<< 3)) &&& 0xff
    else if size = 2 then (data >>> ((where_ &&& 3) <<< 3)) &&& 0xffff
    else if size = 4 then data
    else val0
  { status := PCIBIOS_SUCCESSFUL, val := val, trace := r.2 }

def pci_config_write (hw : Hw) (bus : pci_bus) (devfn where_ size : Nat) (val : Nat)
    (t : Trace) : Int × Trace :=
  let slot := PCI_SLOT devfn
  let func := PCI_FUNC devfn % 2 ^ 8
  let address := u32 ((((where_ &&& 0xF00) >>> 8) <<< 24) ||| (bus.number <<< 16) |||
    (slot <<< 11) ||| (func <<< 8) ||| (where_ &&& 0xfc) ||| 0x80000000)
  let t := bridge_w32 address RALINK_PCI_CONFIG_ADDR t
  let r := bridge_r32 hw RALINK_PCI_CONFIG_DATA_VIRTUAL_REG t
  let data := r.1
  let data :=
    if size = 1 then
      u32 ((data &&& not32 (0xff <<< ((where_ &&& 3) <<< 3))) |||
        u32 (u32 val <<< ((where_ &&& 3) <<< 3)))
    else if size = 2 then
      u32 ((data &&& not32 (0xffff <<< ((where_ &&& 3) <<< 3))) |||
        u32 (u32 val <<< ((where_ &&& 3) <<< 3)))
    else if size = 4 then u32 val
    else data
  let t := bridge_w32 data RALINK_PCI_CONFIG_DATA_VIRTUAL_REG r.2
  (PCIBIOS_SUCCESSFUL, t)

/-! ## Bus framework accessors used by the IRQ routing policy -/

/-- The part of `struct pci_dev` the driver reads: the bus the device sits on,
its devfn and the `irq` field of the device record. -/
structure pci_dev where
  bus : pci_bus
  devfn : Nat
  irq : Nat
  deriving DecidableEq, Repr

/-- Modelled from the spec: `pci_write_config_byte` of the bus-enumeration
framework, which calls the controller's `config_write` callback with size 1
and the value narrowed to `u8`. -/
def pci_write_config_byte (hw : Hw) (dev : pci_dev) (where_ val : Nat) (t : Trace) :
    Int × Trace :=
  pci_config_write hw dev.bus dev.devfn where_ 1 (val % 2 ^ 8) t

/-- Modelled from the spec: `pci_write_config_word` of the bus-enumeration
framework, which calls the controller's `config_write` callback with size 2
and the value narrowed to `u16`. -/
def pci_write_config_word (hw : Hw) (dev : pci_dev) (where_ val : Nat) (t : Trace) :
    Int × Trace :=
  pci_config_write hw dev.bus dev.devfn where_ 2 (val % 2 ^ 16) t

/-- Modelled from the spec: `pci_read_config_word` of the bus-enumeration
framework, which calls the controller's `config_read` callback with size 2 on
a zeroed dword and narrows the result to `u16`. -/
def pci_read_config_word (hw : Hw) (dev : pci_dev) (where_ : Nat) (t : Trace) :
    ReadResult :=
  let r := pci_config_read hw dev.bus dev.devfn where_ 2 0 t
  { r with val := r.val % 2 ^ 16 }

/-! ## Link bring-up state machine (source lines 223-303) -/

/-- Outcome of resource acquisition at attach time: the error of
`devm_reset_control_get` if it failed, and whether each of the two register
windows could be mapped. -/
structure platform_device where
  reset_err : Option Int
  bridge_mapped : Bool
  pcie_mapped : Bool
  deriving DecidableEq, Repr

/-- Source lines 245-261 of `mt7620a_pci_probe`: PHY calibration, first reset
pulse and clock enable, up to and including the first 100-unit wait. -/
def probe_calibrate (hw : Hw) (t : Trace) : Trace :=
  let t := pcie_phy hw 0x0 0x80 t
  let t := pcie_phy hw 0x1 0x04 t
  let t := pcie_phy hw 0x68 0xB4 t
  let t := rt_sysc_m32 hw (0x3 <<< 16) 0 RALINK_GPIOMODE t
  let t := pcie_m32 hw 0 (BIT 1) RALINK_PCI_PCICFG_ADDR t
  let t := reset_control_assert t
  let t := rt_sysc_m32 hw RALINK_PCIE0_CLK_EN 0 RALINK_CLKCFG1 t
  let t := rt_sysc_m32 hw (1 <<< 19) (1 <<< 31) PPLL_DRV t
  let t := reset_control_deassert t
  let t := rt_sysc_m32 hw 0 RALINK_PCIE0_CLK_EN RALINK_CLKCFG1 t
  mdelay 100 t

/-- Source lines 264-266 of `mt7620a_pci_probe`: the body of the PLL-unlock
branch before its `return 0`. -/
def probe_pll_unlock (hw : Hw) (t : Trace) : Trace :=
  let t := printk "MT7620 PPLL unlock\n" t
  let t := reset_control_assert t
  rt_sysc_m32 hw (BIT 26) 0 RALINK_CLKCFG1 t

/-- Source lines 269-281 of `mt7620a_pci_probe`: second-stage clock
programming and the second reset pulse. -/
def probe_clock_gen (hw : Hw) (t : Trace) : Trace :=
  let t := rt_sysc_m32 hw ((0x1 <<< 18) ||| (0x1 <<< 17)) ((0x1 <<< 19) ||| (0x1 <<< 31)) PPLL_DRV t
  let t := mdelay 100 t
  let t := reset_control_assert t
  let t := rt_sysc_m32 hw 0x30 (2 <<< 4) RALINK_SYSCFG1 t
  let t := rt_sysc_m32 hw (not32 0x7fffffff) 0x80000000 RALINK_PCIE_CLK_GEN t
  let t := rt_sysc_m32 hw (not32 0x80ffffff) (0xa <<< 24) RALINK_PCIE_CLK_GEN1 t
  let t := mdelay 50 t
  let t := reset_control_deassert t
  let t := pcie_m32 hw (BIT 1) 0 RALINK_PCI_PCICFG_ADDR t
  mdelay 100 t

/-- Source lines 284-287 of `mt7620a_pci_probe`: the body of the
`if` taken when link-status bit 0 reads 0. -/
def probe_no_card (hw : Hw) (t : Trace) : Trace :=
  let t := reset_control_assert t
  let t := rt_sysc_m32 hw RALINK_PCIE0_CLK_EN 0 RALINK_CLKCFG1 t
  let t := rt_sysc_m32 hw LC_CKDRVPD_ PDRV_SW_SET PPLL_DRV t
  printk "PCIE0 no card, disable it(RST&CLK)\n" t

/-- Source lines 290-300 of `mt7620a_pci_probe`: window and identification
registers, interrupt mask, registration of the controller. -/
def probe_windows (hw : Hw) (t : Trace) : Trace :=
  let t := bridge_w32 0xffffffff RALINK_PCI_MEMBASE t
  let t := bridge_w32 RALINK_PCI_IO_MAP_BASE RALINK_PCI_IOBASE t
  let t := pcie_w32 0x7FFF0000 RALINK_PCI0_BAR0SETUP_ADDR t
  let t := pcie_w32 MEMORY_BASE RALINK_PCI0_IMBASEBAR0_ADDR t
  let t := pcie_w32 0x08021814 RALINK_PCI0_ID t
  let t := pcie_w32 0x06040001 RALINK_PCI0_CLASS t
  let t := pcie_w32 0x28801814 RALINK_PCI0_SUBID t
  let t := pcie_m32 hw 0 (BIT 20) RALINK_PCI_PCIMSK_ADDR t
  register_pci_controller t

/-- `mt7620a_pci_probe`.  The statements of the C function are grouped into
the blocks above, in source order; the assignments to the kernel's global
`iomem_resource` and `ioport_resource` (lines 240-243) touch no register and
are not part of the history. -/
def mt7620a_pci_probe (hw : Hw) (pdev : platform_device) (t : Trace) : Int × Trace :=
  match pdev.reset_err with
  | some e => (e, t)
  | none =>
    if pdev.bridge_mapped = false then (-ENOMEM, t)
    else if pdev.pcie_mapped = false then (-ENOMEM, t)
    else
      let t := probe_calibrate hw t
      let r := rt_sysc_r32 hw PPLL_CFG1 t
      if r.1 &&& (1 <<< 23) = 0 then
        (0, probe_pll_unlock hw r.2)
      else
        let t := probe_clock_gen hw r.2
        let s := pcie_r32 hw RALINK_PCI0_STATUS t
        let t := if s.1 &&& 0x1 = 0 then probe_no_card hw s.2 else s.2
        (0, probe_windows hw t)

/-! ## IRQ routing policy (source lines 305-338) -/

/-- Source lines 327-334 of `pcibios_map_irq`: the housekeeping registers of
the device.  The loop of lines 323-325 only takes addresses and has no
effect. -/
def map_irq_housekeeping (hw : Hw) (dev : pci_dev) (t : Trace) : Trace :=
  let t := (pci_write_config_byte hw dev PCI_CACHE_LINE_SIZE 0x14 t).2
  let t := (pci_write_config_byte hw dev PCI_LATENCY_TIMER 0xFF t).2
  let r := pci_read_config_word hw dev PCI_COMMAND t
  let cmd := r.val
  let cmd := (cmd ||| PCI_COMMAND_MASTER ||| PCI_COMMAND_IO ||| PCI_COMMAND_MEMORY) % 2 ^ 16
  let t := (pci_write_config_word hw dev PCI_COMMAND cmd r.trace).2
  (pci_write_config_byte hw dev PCI_INTERRUPT_LINE dev.irq t).2

/-- Modelled from the spec: the `%x` conversion of `printk` (the kernel's
`vsnprintf`, absent from the sources): the argument in lowercase hexadecimal,
without padding. -/
def printk_hex (n : Nat) : String := String.mk (Nat.toDigits 16 n)

def pcibios_map_irq (hw : Hw) (dev : pci_dev) (slot _pin : Nat) (t : Trace) : Nat × Trace :=
  let irq := 0
  if dev.bus.number = 0 ∧ slot = 0 then
    let t := pcie_w32 0x7FFF0001 RALINK_PCI0_BAR0SETUP_ADDR t
    let t := (pci_config_write hw dev.bus 0 PCI_BASE_ADDRESS_0 4 MEMORY_BASE t).2
    let r := pci_config_read hw dev.bus 0 PCI_BASE_ADDRESS_0 4 0 t
    (irq, map_irq_housekeeping hw dev r.trace)
  else if dev.bus.number = 1 ∧ slot = 0x0 then
    let irq := RALINK_INT_PCIE0
    (irq, map_irq_housekeeping hw dev t)
  else
    (0, printk ("bus=0x" ++ printk_hex dev.bus.number ++ ", slot = 0x" ++ printk_hex slot ++
      "\n") t)

/-- The value `mt7620a_pci_probe` reads from `PPLL_CFG1` at source line 263,
after the calibration block, when it is entered with history `t`. -/
def pll_status (hw : Hw) (t : Trace) : Nat :=
  (rt_sysc_r32 hw PPLL_CFG1 (probe_calibrate hw t)).1

/-- The value `mt7620a_pci_probe` reads from `RALINK_PCI0_STATUS` at source
line 283, on the path on which the PLL has locked. -/
def link_status (hw : Hw) (t : Trace) : Nat :=
  (pcie_r32 hw RALINK_PCI0_STATUS
    (probe_clock_gen hw (rt_sysc_r32 hw PPLL_CFG1 (probe_calibrate hw t)).2)).1

/-- Resource acquisition succeeded: the reset handle was obtained and both
register windows were mapped. -/
def acquired (pdev : platform_device) : Prop :=
  pdev.reset_err = none ∧ pdev.bridge_mapped = true ∧ pdev.pcie_mapped = true

/-- A platform device all of whose resources can be acquired. -/
def okDev : platform_device := { reset_err := none, bridge_mapped := true, pcie_mapped := true }

/-! ## Observations on a history -/

/-- Value of the newest write to register `reg` of window `w`, if any. -/
def lastWrite (w : Win) (reg : Nat) : Trace → Option Nat
  | [] => none
  | Event.wr w1 reg1 v :: t => if w1 = w ∧ reg1 = reg then some v else lastWrite w reg t
  | _ :: t => lastWrite w reg t

/-- State of the reset line after a history: `some true` when the newest reset
operation asserted it, `some false` when it deasserted it. -/
def resetAsserted : Trace → Option Bool
  | [] => none
  | Event.reset_assert :: _ => some true
  | Event.reset_deassert :: _ => some false
  | _ :: t => resetAsserted t

/-- Number of times the controller was handed to the enumeration framework. -/
def registrations (t : Trace) : Nat := t.count Event.register_pci_controller

/-- Writes to the window and identification registers of section 4.3:
MEMBASE and IOBASE of the bridge window; BAR0SETUP, IMBASEBAR0, ID, CLASS,
SUBID and PCIMSK of the PCIe window. -/
def isWindowWrite : Event → Bool
  | Event.wr Win.bridge reg _ =>
      decide (reg = RALINK_PCI_MEMBASE) || decide (reg = RALINK_PCI_IOBASE)
  | Event.wr Win.pcie reg _ =>
      decide (reg = RALINK_PCI0_BAR0SETUP_ADDR) || decide (reg = RALINK_PCI0_IMBASEBAR0_ADDR) ||
      decide (reg = RALINK_PCI0_ID) || decide (reg = RALINK_PCI0_CLASS) ||
      decide (reg = RALINK_PCI0_SUBID) || decide (reg = RALINK_PCI_PCIMSK_ADDR)
  | _ => false

/-- The window and identification writes of a history, newest first. -/
def windowWrites (t : Trace) : List Event := t.filter isWindowWrite

/-- Reads of the PHY control register. -/
def isPhyPoll : Event → Bool
  | Event.rd Win.pcie reg _ => decide (reg = PCIEPHY0_CFG)
  | _ => false

/-- Number of reads of the PHY control register in a history. -/
def phyPolls (t : Trace) : Nat := t.countP isPhyPoll

/-- Events that neither write a register, nor touch the reset line, nor
register the controller: reads, delays and log lines. -/
def isPassive : Event → Bool
  | Event.rd _ _ _ => true
  | Event.mdelay _ => true
  | Event.printk _ => true
  | _ => false

/-! ## The configuration space behind the bridge, as a store -/

/-- Configuration space as the bridge presents it: the address token last
written to the address register and the dword held for every token. -/
structure CfgSpace where
  addr : Nat
  mem : Nat → Nat

/-- Modelled from the spec: effect of one event on the configuration space.
A write of the address register selects the target dword; a write of the data
register stores into the selected dword; nothing else changes it. -/
def cfgStep (e : Event) (s : CfgSpace) : CfgSpace :=
  match e with
  | Event.wr Win.bridge reg v =>
      if reg = RALINK_PCI_CONFIG_ADDR then { s with addr := v }
      else if reg = RALINK_PCI_CONFIG_DATA_VIRTUAL_REG then
        { s with mem := fun a => if a = s.addr then v else s.mem a }
      else s
  | _ => s

/-- Configuration space after a history that started from `s0`. -/
def cfgReplay (s0 : CfgSpace) : Trace → CfgSpace
  | [] => s0
  | e :: t => cfgStep e (cfgReplay s0 t)

/-- The dword the bridge surfaces through the data register after a history. -/
def cfgData (s0 : CfgSpace) (t : Trace) : Nat :=
  (cfgReplay s0 t).mem (cfgReplay s0 t).addr

/-- Modelled from the spec: the data register of the bridge is a store of
dwords selected by the address token; a read of the data register returns the
dword selected by the address register.  Other registers are unconstrained. -/
def CfgStore (hw : Hw) (s0 : CfgSpace) : Prop :=
  ∀ t : Trace, hw t Win.bridge RALINK_PCI_CONFIG_DATA_VIRTUAL_REG = cfgData s0 t

/-- The configuration space in which every dword is 0 and token 0 is
selected. -/
def zeroCfg : CfgSpace := { addr := 0, mem := fun _ => 0 }

/-- A device whose configuration data register is the store started from `s0`
and whose other registers read `other`. -/
def storeHw (s0 : CfgSpace) (other : Nat) : Hw :=
  fun t w reg =>
    if w = Win.bridge ∧ reg = RALINK_PCI_CONFIG_DATA_VIRTUAL_REG then cfgData s0 t else other

/-- A device every register of which reads the same value forever. -/
def constHw (v : Nat) : Hw := fun _ _ _ => v

/-- A device on which the PLL reports lock (bit 23 of `PPLL_CFG1`) and every
other register reads `other`. -/
def lockedHw (other : Nat) : Hw :=
  fun _ w reg => if w = Win.sysc ∧ reg = PPLL_CFG1 then 1 <<< 23 else other

/-! ## The address token in the words of the specification -/

/-- Address token as section 4.4 writes it, with `slot = devfn >> 3 & 0x1F`,
`func = devfn & 7` and the enable bit `0x80000000`. -/
def addressToken (bus devfn offset : Nat) : Nat :=
  (((offset >>> 8) &&& 0xF) <<< 24) ||| (bus <<< 16) ||| (((devfn >>> 3) &&& 0x1F) <<< 11) |||
    ((devfn &&& 7) <<< 8) ||| (offset &&& 0xFC) ||| 0x80000000

/-- The value both access functions assign to the local `address` (source
lines 147 and 173). -/
def config_address (bus : pci_bus) (devfn where_ : Nat) : Nat :=
  u32 ((((where_ &&& 0xF00) >>> 8) <<< 24) ||| (bus.number <<< 16) |||
    (PCI_SLOT devfn <<< 11) ||| ((PCI_FUNC devfn % 2 ^ 8) <<< 8) ||| (where_ &&& 0xfc) |||
    0x80000000)

/-- Byte lane `k` of a dword. -/
def byteLane (x k : Nat) : Nat := (x >>> (8 * k)) &&& 0xff

/-! ## Observations for the busy-wait and for the `PCICFG` register -/

/-- History after the busy reads `vs` of the PHY control register, oldest
first, each followed by its 100-unit delay. -/
def busyPolls : List Nat → Trace → Trace
  | [], t => t
  | v :: vs, t => busyPolls vs (Event.mdelay 100 :: Event.rd Win.pcie PCIEPHY0_CFG v :: t)

/-- The values `vs` are what the device returns for successive reads of the
PHY control register, each read taken after the delay that follows the one
before. -/
def readsFrom (hw : Hw) : List Nat → Trace → Prop
  | [], _ => True
  | v :: vs, t =>
      v = u32 (hw t Win.pcie PCIEPHY0_CFG) ∧
      readsFrom hw vs (Event.mdelay 100 :: Event.rd Win.pcie PCIEPHY0_CFG v :: t)

/-- Accesses to the PCIe subsystem register `PCICFG` (offset 0x00) and
operations on the reset line. -/
def isPcicfgOrReset : Event → Bool
  | Event.rd Win.pcie reg _ => decide (reg = RALINK_PCI_PCICFG_ADDR)
  | Event.wr Win.pcie reg _ => decide (reg = RALINK_PCI_PCICFG_ADDR)
  | Event.reset_assert => true
  | Event.reset_deassert => true
  | _ => false

/-- The `PCICFG` accesses and reset operations of a history, newest first. -/
def pcicfgView (t : Trace) : List Event := t.filter isPcicfgOrReset

/-! ## Bit-level facts -/

theorem testBit_not32 (x i : Nat) :
    (not32 x).testBit i = (decide (i < 32) && !x.testBit i) := by
  unfold not32
  rw [Nat.testBit_xor, Nat.testBit_mod_two_pow,
    show (0xFFFFFFFF : Nat) = 2 ^ 32 - 1 by norm_num, Nat.testBit_two_pow_sub_one]
  by_cases h : i < 32 <;> simp [h]

theorem testBit_0xff (i : Nat) : (0xff : Nat).testBit i = decide (i < 8) := by
  rw [show (0xff : Nat) = 2 ^ 8 - 1 by norm_num, Nat.testBit_two_pow_sub_one]

theorem testBit_0xffff (i : Nat) : (0xffff : Nat).testBit i = decide (i < 16) := by
  rw [show (0xffff : Nat) = 2 ^ 16 - 1 by norm_num, Nat.testBit_two_pow_sub_one]

theorem u32_lt (x : Nat) : u32 x < 2 ^ 32 := Nat.mod_lt _ (by norm_num)

theorem u32_of_lt {x : Nat} (h : x < 2 ^ 32) : u32 x = x := Nat.mod_eq_of_lt h

theorem u32_u32 (x : Nat) : u32 (u32 x) = u32 x := u32_of_lt (u32_lt x)

theorem mask_shift_swap (w : Nat) : (w &&& 0xF00) >>> 8 = (w >>> 8) &&& 0xF := by
  apply Nat.eq_of_testBit_eq
  intro i
  have h : 8 + i - 8 = i := by omega
  have h8 : (0xF00 : Nat).testBit (8 + i) = (0xF : Nat).testBit i := by
    rw [show (0xF00 : Nat) = 0xF <<< 8 by decide, Nat.testBit_shiftLeft, h]
    simp
  rw [Nat.testBit_and, Nat.testBit_shiftRight, Nat.testBit_and, Nat.testBit_shiftRight, h8]

theorem func_u8 (devfn : Nat) : PCI_FUNC devfn % 2 ^ 8 = devfn &&& 7 := by
  unfold PCI_FUNC
  apply Nat.mod_eq_of_lt
  exact lt_of_le_of_lt Nat.and_le_right (by norm_num)

theorem addressToken_lt (bus devfn offset : Nat) (hb : bus < 256) :
    addressToken bus devfn offset < 2 ^ 32 := by
  unfold addressToken
  have h1 : ((offset >>> 8) &&& 0xF) ≤ 0xF := Nat.and_le_right
  have h2 : ((devfn >>> 3) &&& 0x1F) ≤ 0x1F := Nat.and_le_right
  have h3 : (devfn &&& 7) ≤ 7 := Nat.and_le_right
  have h4 : (offset &&& 0xFC) ≤ 0xFC := Nat.and_le_right
  refine Nat.or_lt_two_pow (Nat.or_lt_two_pow (Nat.or_lt_two_pow (Nat.or_lt_two_pow
    (Nat.or_lt_two_pow ?_ ?_) ?_) ?_) ?_) (by norm_num)
  · rw [Nat.shiftLeft_eq]; omega
  · rw [Nat.shiftLeft_eq]; omega
  · rw [Nat.shiftLeft_eq]; omega
  · rw [Nat.shiftLeft_eq]; omega
  · omega

/-- The expression the two access functions compute for `address` is the
token of the specification. -/
theorem address_expr_eq (bus devfn where_ : Nat) (hb : bus < 256) :
    u32 ((((where_ &&& 0xF00) >>> 8) <<< 24) ||| (bus <<< 16) |||
      (PCI_SLOT devfn <<< 11) ||| ((PCI_FUNC devfn % 2 ^ 8) <<< 8) ||| (where_ &&& 0xfc) |||
      0x80000000) = addressToken bus devfn where_ := by
  rw [mask_shift_swap, func_u8]
  exact u32_of_lt (addressToken_lt bus devfn where_ hb)

/-! ## Shape of one configuration access -/

theorem config_address_eq (bus : pci_bus) (devfn where_ : Nat) (hb : bus.number < 256) :
    config_address bus devfn where_ = addressToken bus.number devfn where_ :=
  address_expr_eq bus.number devfn where_ hb

/-- History after a configuration read: the token goes to the address
register, then the data register is read. -/
theorem pci_config_read_trace (hw : Hw) (bus : pci_bus) (devfn where_ size val0 : Nat)
    (t : Trace) :
    (pci_config_read hw bus devfn where_ size val0 t).trace =
      Event.rd Win.bridge 0x24
        (u32 (hw (Event.wr Win.bridge 0x20 (config_address bus devfn where_) :: t)
          Win.bridge 0x24)) ::
      Event.wr Win.bridge 0x20 (config_address bus devfn where_) :: t := by
  simp only [pci_config_read, bridge_w32, iowrite32, bridge_r32, ioread32,
    RALINK_PCI_CONFIG_DATA_VIRTUAL_REG, RALINK_PCI_CONFIG_ADDR, config_address, u32_u32]

/-- Value a configuration read stores through `val`. -/
theorem pci_config_read_val (hw : Hw) (bus : pci_bus) (devfn where_ size val0 : Nat)
    (t : Trace) :
    (pci_config_read hw bus devfn where_ size val0 t).val =
      (if size = 1 then
        (u32 (hw (Event.wr Win.bridge 0x20 (config_address bus devfn where_) :: t)
          Win.bridge 0x24) >>> ((where_ &&& 3) <<< 3)) &&& 0xff
      else if size = 2 then
        (u32 (hw (Event.wr Win.bridge 0x20 (config_address bus devfn where_) :: t)
          Win.bridge 0x24) >>> ((where_ &&& 3) <<< 3)) &&& 0xffff
      else if size = 4 then
        u32 (hw (Event.wr Win.bridge 0x20 (config_address bus devfn where_) :: t)
          Win.bridge 0x24)
      else val0) := by
  simp only [pci_config_read, bridge_w32, iowrite32, bridge_r32, ioread32,
    RALINK_PCI_CONFIG_DATA_VIRTUAL_REG, RALINK_PCI_CONFIG_ADDR, config_address, u32_u32]

/-- The dword a configuration write of `val` puts back when the data register
read `data`. -/
theorem pci_config_write_trace (hw : Hw) (bus : pci_bus) (devfn where_ size val : Nat)
    (t : Trace) :
    (pci_config_write hw bus devfn where_ size val t).2 =
      Event.wr Win.bridge 0x24
        (if size = 1 then
          u32 ((u32 (hw (Event.wr Win.bridge 0x20 (config_address bus devfn where_) :: t)
              Win.bridge 0x24) &&& not32 (0xff <<< ((where_ &&& 3) <<< 3))) |||
            u32 (u32 val <<< ((where_ &&& 3) <<< 3)))
        else if size = 2 then
          u32 ((u32 (hw (Event.wr Win.bridge 0x20 (config_address bus devfn where_) :: t)
              Win.bridge 0x24) &&& not32 (0xffff <<< ((where_ &&& 3) <<< 3))) |||
            u32 (u32 val <<< ((where_ &&& 3) <<< 3)))
        else if size = 4 then u32 val
        else u32 (hw (Event.wr Win.bridge 0x20 (config_address bus devfn where_) :: t)
              Win.bridge 0x24)) ::
      Event.rd Win.bridge 0x24
        (u32 (hw (Event.wr Win.bridge 0x20 (config_address bus devfn where_) :: t)
          Win.bridge 0x24)) ::
      Event.wr Win.bridge 0x20 (config_address bus devfn where_) :: t := by
  simp only [pci_config_write, bridge_w32, iowrite32, bridge_r32, ioread32,
    RALINK_PCI_CONFIG_DATA_VIRTUAL_REG, RALINK_PCI_CONFIG_ADDR, config_address, u32_u32]
  split_ifs <;> simp only [u32_u32]

/-- Bits of the dword a sub-dword write puts back: inside the lane mask the
bits of the value, outside it the bits that were read. -/
theorem merge_testBit (old v sh m i : Nat) :
    (u32 ((old &&& not32 ((2 ^ m - 1) <<< sh)) ||| u32 (u32 v <<< sh))).testBit i =
      (decide (i < 32) && ((old.testBit i && !(decide (sh ≤ i) && decide (i - sh < m))) ||
        (decide (sh ≤ i) && (decide (i - sh < 32) && v.testBit (i - sh))))) := by
  simp only [u32, Nat.testBit_mod_two_pow, Nat.testBit_or, Nat.testBit_and, testBit_not32,
    Nat.testBit_shiftLeft, Nat.testBit_two_pow_sub_one]
  by_cases h32 : i < 32 <;> by_cases hs : sh ≤ i <;> by_cases hm : i - sh < m <;>
    simp [h32, hs, hm]

/-- Reading a lane back after a merge returns the low bits of the value, as
long as the lane lies inside the dword. -/
theorem merge_read_back (old v sh m : Nat) (h : sh + m ≤ 32) :
    (u32 (u32 ((old &&& not32 ((2 ^ m - 1) <<< sh)) ||| u32 (u32 v <<< sh))) >>> sh) &&&
      (2 ^ m - 1) = v &&& (2 ^ m - 1) := by
  apply Nat.eq_of_testBit_eq
  intro j
  rw [u32_u32, Nat.testBit_and, Nat.testBit_shiftRight, merge_testBit, Nat.testBit_and,
    Nat.testBit_two_pow_sub_one]
  by_cases hj : j < m
  · have h1 : sh + j < 32 := by omega
    have h2 : sh + j - sh = j := by omega
    have h3 : j < 32 := by omega
    simp [hj, h1, h2, h3]
  · simp [hj]

theorem lane_shift_le (where_ : Nat) : (where_ &&& 3) <<< 3 ≤ 24 := by
  have h : (where_ &&& 3) ≤ 3 := Nat.and_le_right
  rw [Nat.shiftLeft_eq]
  omega

theorem lane_shift_eq (where_ : Nat) : (where_ &&& 3) <<< 3 = 8 * (where_ &&& 3) := by
  rw [Nat.shiftLeft_eq]
  omega

/-- The store surfaces the dword just written when the same token is selected
again. -/
theorem cfgData_after_write (s0 : CfgSpace) (a new old : Nat) (t : Trace) :
    cfgData s0 (Event.wr Win.bridge 0x20 a :: Event.wr Win.bridge 0x24 new ::
      Event.rd Win.bridge 0x24 old :: Event.wr Win.bridge 0x20 a :: t) = new := by
  simp [cfgData, cfgReplay, cfgStep, RALINK_PCI_CONFIG_ADDR, RALINK_PCI_CONFIG_DATA_VIRTUAL_REG]

/-- What a read returns right after a write at the same location, on a device
whose data register is a store. -/
theorem read_after_write_val (hw : Hw) (s0 : CfgSpace) (hs : CfgStore hw s0) (bus : pci_bus)
    (devfn where_ size v val0 : Nat) (t : Trace) :
    (pci_config_read hw bus devfn where_ size val0
        (pci_config_write hw bus devfn where_ size v t).2).val =
      (if size = 1 then
        (u32 (u32 ((u32 (hw (Event.wr Win.bridge 0x20 (config_address bus devfn where_) :: t)
              Win.bridge 0x24) &&& not32 (0xff <<< ((where_ &&& 3) <<< 3))) |||
            u32 (u32 v <<< ((where_ &&& 3) <<< 3)))) >>> ((where_ &&& 3) <<< 3)) &&& 0xff
      else if size = 2 then
        (u32 (u32 ((u32 (hw (Event.wr Win.bridge 0x20 (config_address bus devfn where_) :: t)
              Win.bridge 0x24) &&& not32 (0xffff <<< ((where_ &&& 3) <<< 3))) |||
            u32 (u32 v <<< ((where_ &&& 3) <<< 3)))) >>> ((where_ &&& 3) <<< 3)) &&& 0xffff
      else if size = 4 then u32 (u32 v)
      else val0) := by
  have hs1 : ∀ t1 : Trace, hw t1 Win.bridge 0x24 = cfgData s0 t1 := hs
  rw [pci_config_read_val, pci_config_write_trace, hs1 (Event.wr Win.bridge 0x20 _ :: _),
    cfgData_after_write]
  split_ifs <;> rfl

/-- Outside the lane a merge leaves every bit as it was read, provided the
value fits the lane. -/
theorem merge_outside (old v sh m i : Nat) (hold : old < 2 ^ 32) (hv : v < 2 ^ m)
    (hout : i < sh ∨ sh + m ≤ i) :
    (u32 ((old &&& not32 ((2 ^ m - 1) <<< sh)) ||| u32 (u32 v <<< sh))).testBit i =
      old.testBit i := by
  rw [merge_testBit]
  by_cases h32 : i < 32
  · rcases hout with h | h
    · have hs : ¬ sh ≤ i := by omega
      simp [h32, hs]
    · have hs : sh ≤ i := by omega
      have hm : ¬ i - sh < m := by omega
      have hvb : v.testBit (i - sh) = false :=
        Nat.testBit_lt_two_pow (lt_of_lt_of_le hv (Nat.pow_le_pow_right (by norm_num) (by omega)))
      simp [h32, hs, hm, hvb]
  · have hob : old.testBit i = false :=
      Nat.testBit_lt_two_pow (lt_of_lt_of_le hold (Nat.pow_le_pow_right (by norm_num) (by omega)))
    simp [h32, hob]

theorem byteLane_testBit (x k j : Nat) :
    (byteLane x k).testBit j = (x.testBit (8 * k + j) && decide (j < 8)) := by
  rw [byteLane, Nat.testBit_and, Nat.testBit_shiftRight, testBit_0xff]

/-- Byte lanes outside the target keep their value through a merge. -/
theorem merge_byteLane (old v lane width k : Nat) (hold : old < 2 ^ 32)
    (hv : v < 2 ^ (8 * width)) (hk : k < lane ∨ lane + width ≤ k) :
    byteLane (u32 ((old &&& not32 ((2 ^ (8 * width) - 1) <<< (8 * lane))) |||
      u32 (u32 v <<< (8 * lane)))) k = byteLane old k := by
  apply Nat.eq_of_testBit_eq
  intro j
  rw [byteLane_testBit, byteLane_testBit]
  by_cases hj : j < 8
  · rw [merge_outside old v (8 * lane) (8 * width) (8 * k + j) hold hv (by omega)]
  · simp [hj]

/-! ## Configuration access: round trip, lane isolation, address token -/

/-- C1 (as stated, refuted): on a store-backed data register, a 2-byte write
of 0x100 at offset 3 followed by a 2-byte read at offset 3 returns 0, not
0x100 masked to two bytes: the half-word starting at byte lane 3 does not fit
the dword. -/
theorem round_trip_fails_word_at_lane3 :
    CfgStore (storeHw zeroCfg 0) zeroCfg ∧
    (pci_config_read (storeHw zeroCfg 0) { number := 0 } 0 3 2 0
      (pci_config_write (storeHw zeroCfg 0) { number := 0 } 0 3 2 0x100 []).2).val = 0 ∧
    (0x100 : Nat) &&& 0xFFFF = 0x100 := by
  refine ⟨fun t => ?_, ?_, by decide⟩
  · simp [storeHw]
  · decide

/-- C1 (amended): on a device whose data register is a store of dwords
selected by the address token, for every bus, devfn, offset and 32-bit value
`v`, a write of width 1 or 4, or of width 2 at an offset whose byte lane
`offset & 3` is not 3, followed by a read of the same width at the same
location returns `v & 0xFF` for width 1, `v & 0xFFFF` for width 2 and `v` for
width 4. -/
theorem config_write_read_round_trip (hw : Hw) (s0 : CfgSpace) (hs : CfgStore hw s0)
    (bus : pci_bus) (devfn offset width v val0 : Nat) (t : Trace) (hv : v < 2 ^ 32)
    (hwidth : width = 1 ∨ width = 4 ∨ (width = 2 ∧ offset &&& 3 ≠ 3)) :
    (pci_config_read hw bus devfn offset width val0
        (pci_config_write hw bus devfn offset width v t).2).val =
      (if width = 1 then v &&& 0xFF else if width = 2 then v &&& 0xFFFF else v) := by
  rw [read_after_write_val hw s0 hs]
  have hlane : (offset &&& 3) ≤ 3 := Nat.and_le_right
  rcases hwidth with h | h | ⟨h, hl⟩
  · subst h
    simp only [if_true]
    exact merge_read_back _ v ((offset &&& 3) <<< 3) 8 (by have := lane_shift_le offset; omega)
  · subst h
    simp only [show (4 : Nat) ≠ 1 by decide, show (4 : Nat) ≠ 2 by decide, if_false, if_true,
      u32_u32, u32_of_lt hv]
  · subst h
    simp only [show (2 : Nat) ≠ 1 by decide, if_false, if_true]
    have hsh : (offset &&& 3) <<< 3 + 16 ≤ 32 := by
      rw [lane_shift_eq]
      omega
    exact merge_read_back _ v ((offset &&& 3) <<< 3) 16 hsh

/-- C1 witness: a half-word write and read-back at bus 1, devfn 8, offset 0x3e
on a zero-initialised store. -/
theorem config_write_read_round_trip_witness :
    CfgStore (storeHw zeroCfg 7) zeroCfg ∧ (0x1234ABCD : Nat) < 2 ^ 32 ∧
    ((2 : Nat) = 1 ∨ (2 : Nat) = 4 ∨ ((2 : Nat) = 2 ∧ 0x3e &&& 3 ≠ 3)) ∧
    (pci_config_read (storeHw zeroCfg 7) { number := 1 } 8 0x3e 2 0
        (pci_config_write (storeHw zeroCfg 7) { number := 1 } 8 0x3e 2 0x1234ABCD []).2).val =
      (if (2 : Nat) = 1 then 0x1234ABCD &&& 0xFF else if (2 : Nat) = 2 then 0x1234ABCD &&& 0xFFFF
        else 0x1234ABCD) :=
  ⟨fun t => by simp [storeHw], by decide, by decide,
    config_write_read_round_trip (storeHw zeroCfg 7) zeroCfg (fun t => by simp [storeHw])
      { number := 1 } 8 0x3e 2 0x1234ABCD 0 [] (by decide) (by decide)⟩

/-- C2 (as stated, refuted): a 1-byte write of the 32-bit value 0x100 at
offset 0, when the dword reads 0, puts back 0x100: byte lane 1, outside the
targeted byte, changes from 0 to 1. -/
theorem lane_isolation_fails_for_wide_value :
    (pci_config_write (constHw 0) { number := 0 } 0 0 1 0x100 []).2 =
      [Event.wr Win.bridge 0x24 0x100, Event.rd Win.bridge 0x24 0,
        Event.wr Win.bridge 0x20 0x80000000] ∧
    byteLane 0x100 1 = 1 ∧ byteLane 0 1 = 0 := by
  decide

/-- C2 (amended): for every bus, devfn, offset, every width in {1,2} and every
value `v` that fits in `width` bytes, the dword `new` that `pci_config_write`
writes back to the data register and the dword `old` it read agree on every
byte lane outside the `width` bytes starting at lane `offset & 3`. -/
theorem config_write_lane_isolation (hw : Hw) (bus : pci_bus) (devfn offset width v : Nat)
    (t : Trace) (hwidth : width = 1 ∨ width = 2) (hv : v < 2 ^ (8 * width)) :
    ∃ old new : Nat,
      (pci_config_write hw bus devfn offset width v t).2 =
        Event.wr Win.bridge 0x24 new :: Event.rd Win.bridge 0x24 old ::
          Event.wr Win.bridge 0x20 (config_address bus devfn offset) :: t ∧
      ∀ k : Nat, (k < (offset &&& 3) ∨ (offset &&& 3) + width ≤ k) →
        byteLane new k = byteLane old k := by
  refine ⟨_, _, pci_config_write_trace hw bus devfn offset width v t, ?_⟩
  intro k hk
  rcases hwidth with h | h
  · subst h
    simp only [if_true, lane_shift_eq]
    exact merge_byteLane _ v (offset &&& 3) 1 k (u32_lt _) hv hk
  · subst h
    simp only [show (2 : Nat) ≠ 1 by decide, if_false, if_true, lane_shift_eq]
    exact merge_byteLane _ v (offset &&& 3) 2 k (u32_lt _) hv hk

/-- C2 witness: a byte write of 0xAB at offset 0x0d of bus 1, devfn 0; byte
lanes 0, 2 and 3 are outside the target. -/
theorem config_write_lane_isolation_witness :
    ((1 : Nat) = 1 ∨ (1 : Nat) = 2) ∧ (0xAB : Nat) < 2 ^ (8 * 1) ∧
    ∃ old new : Nat,
      (pci_config_write (constHw 0x12345678) { number := 1 } 0 0x0d 1 0xAB []).2 =
        Event.wr Win.bridge 0x24 new :: Event.rd Win.bridge 0x24 old ::
          Event.wr Win.bridge 0x20 (config_address { number := 1 } 0 0x0d) :: [] ∧
      ∀ k : Nat, (k < (0x0d &&& 3) ∨ (0x0d &&& 3) + 1 ≤ k) →
        byteLane new k = byteLane old k :=
  ⟨by decide, by decide,
    config_write_lane_isolation (constHw 0x12345678) { number := 1 } 0 0x0d 1 0xAB []
      (by decide) (by decide)⟩

/-- C3: for every bus number (an unsigned char), devfn and register offset,
`pci_config_read` and `pci_config_write` each write the bridge address
register (offset 0x20) exactly once, first thing, and the value is
`((offset >> 8 & 0xF) << 24) | (bus << 16) | (slot << 11) | (func << 8) |
(offset & 0xFC) | 0x80000000`, whatever the device, the history, the width and
the value; read and write form the same token. -/
theorem address_token_formula (hw : Hw) (bus : pci_bus) (devfn offset size val val0 : Nat)
    (t : Trace) (hb : bus.number < 256) :
    (∃ d : Nat, (pci_config_read hw bus devfn offset size val0 t).trace =
      Event.rd Win.bridge 0x24 d ::
        Event.wr Win.bridge 0x20 (addressToken bus.number devfn offset) :: t) ∧
    (∃ d nd : Nat, (pci_config_write hw bus devfn offset size val t).2 =
      Event.wr Win.bridge 0x24 nd :: Event.rd Win.bridge 0x24 d ::
        Event.wr Win.bridge 0x20 (addressToken bus.number devfn offset) :: t) := by
  rw [← config_address_eq bus devfn offset hb]
  exact ⟨⟨_, pci_config_read_trace hw bus devfn offset size val0 t⟩,
    ⟨_, _, pci_config_write_trace hw bus devfn offset size val t⟩⟩

/-- C3 witness: bus 1, devfn 0x0b (slot 1, function 3), offset 0x145; the
token is 0x81010b44. -/
theorem address_token_formula_witness :
    (1 : Nat) < 256 ∧ addressToken 1 0x0b 0x145 = 0x81010b44 ∧
    (∃ d : Nat, (pci_config_read (constHw 0) { number := 1 } 0x0b 0x145 4 0 []).trace =
      Event.rd Win.bridge 0x24 d ::
        Event.wr Win.bridge 0x20 (addressToken 1 0x0b 0x145) :: []) ∧
    (∃ d nd : Nat, (pci_config_write (constHw 0) { number := 1 } 0x0b 0x145 4 9 []).2 =
      Event.wr Win.bridge 0x24 nd :: Event.rd Win.bridge 0x24 d ::
        Event.wr Win.bridge 0x20 (addressToken 1 0x0b 0x145) :: []) :=
  ⟨by decide, by decide,
    address_token_formula (constHw 0) { number := 1 } 0x0b 0x145 4 9 0 [] (by decide)⟩

/-- The merge of Scenario C, for each of the 256 byte values. -/
theorem scenario_c_merge : ∀ b : Nat, b ≤ 0xFF →
    u32 ((u32 0x12345678 &&& not32 (0xff <<< ((0x05 &&& 3) <<< 3))) |||
      u32 (u32 b <<< ((0x05 &&& 3) <<< 3))) = 0x12340078 ||| (b <<< 8) ∧
    byteLane (0x12340078 ||| (b <<< 8)) 0 = 0x78 ∧
    byteLane (0x12340078 ||| (b <<< 8)) 1 = b ∧
    byteLane (0x12340078 ||| (b <<< 8)) 2 = 0x34 ∧
    byteLane (0x12340078 ||| (b <<< 8)) 3 = 0x12 := by
  intro b hb
  interval_cases b <;> decide

/-- C9 (as stated, refuted): with the dword reading 0x12345678, a 1-byte write
of 0 at offset 0x05 puts back 0x12340078, while the formula
`0x12345600 | (b << 8)` gives 0x12345600. -/
theorem scenario_c_stated_dword_wrong :
    (pci_config_write (constHw 0x12345678) { number := 0 } 0 0x05 1 0 []).2 =
      [Event.wr Win.bridge 0x24 0x12340078, Event.rd Win.bridge 0x24 0x12345678,
        Event.wr Win.bridge 0x20 0x80000004] ∧
    (0x12345600 ||| (0 <<< 8) : Nat) = 0x12345600 ∧ (0x12340078 : Nat) ≠ 0x12345600 := by
  decide

/-- C9 (amended): for every byte value `b`, a configuration write of width 1
at offset 0x05, when the addressed dword reads 0x12345678, writes back the
dword `0x12340078 | (b << 8)`: byte lane 1 holds `b` and the lanes 0, 2 and 3
keep 0x78, 0x34 and 0x12. -/
theorem scenario_c_byte_write (hw : Hw) (bus : pci_bus) (devfn b : Nat) (t : Trace)
    (hb : b ≤ 0xFF)
    (hd : hw (Event.wr Win.bridge 0x20 (config_address bus devfn 0x05) :: t) Win.bridge 0x24 =
      0x12345678) :
    (pci_config_write hw bus devfn 0x05 1 b t).2 =
      Event.wr Win.bridge 0x24 (0x12340078 ||| (b <<< 8)) ::
        Event.rd Win.bridge 0x24 0x12345678 ::
        Event.wr Win.bridge 0x20 (config_address bus devfn 0x05) :: t ∧
    byteLane (0x12340078 ||| (b <<< 8)) 0 = 0x78 ∧
    byteLane (0x12340078 ||| (b <<< 8)) 1 = b ∧
    byteLane (0x12340078 ||| (b <<< 8)) 2 = 0x34 ∧
    byteLane (0x12340078 ||| (b <<< 8)) 3 = 0x12 := by
  obtain ⟨h0, h1⟩ := scenario_c_merge b hb
  refine ⟨?_, h1⟩
  rw [pci_config_write_trace, hd, if_pos rfl, h0]
  rfl

/-- C9 witness: the byte 0xAB written at offset 0x05 of bus 0, devfn 0. -/
theorem scenario_c_byte_write_witness :
    (0xAB : Nat) ≤ 0xFF ∧
    constHw 0x12345678 (Event.wr Win.bridge 0x20 (config_address { number := 0 } 0 0x05) :: [])
      Win.bridge 0x24 = 0x12345678 ∧
    (pci_config_write (constHw 0x12345678) { number := 0 } 0 0x05 1 0xAB []).2 =
      Event.wr Win.bridge 0x24 (0x12340078 ||| (0xAB <<< 8)) ::
        Event.rd Win.bridge 0x24 0x12345678 ::
        Event.wr Win.bridge 0x20 (config_address { number := 0 } 0 0x05) :: [] ∧
    byteLane (0x12340078 ||| (0xAB <<< 8)) 0 = 0x78 ∧
    byteLane (0x12340078 ||| (0xAB <<< 8)) 1 = 0xAB ∧
    byteLane (0x12340078 ||| (0xAB <<< 8)) 2 = 0x34 ∧
    byteLane (0x12340078 ||| (0xAB <<< 8)) 3 = 0x12 :=
  ⟨by decide, rfl,
    scenario_c_byte_write (constHw 0x12345678) { number := 0 } 0 0xAB [] (by decide) rfl⟩

/-! ## IRQ routing -/

/-- C4: for every device, pin, device model and history, `pcibios_map_irq`
returns 0 when (bus, slot) = (0, 0), `RALINK_INT_PCIE0` = 4 when
(bus, slot) = (1, 0), and 0 for every other (bus, slot). -/
theorem map_irq_result (hw : Hw) (dev : pci_dev) (slot pin : Nat) (t : Trace) :
    (pcibios_map_irq hw dev slot pin t).1 =
      (if dev.bus.number = 0 ∧ slot = 0 then 0
       else if dev.bus.number = 1 ∧ slot = 0 then 4
       else 0) ∧ RALINK_INT_PCIE0 = 4 := by
  refine ⟨?_, rfl⟩
  unfold pcibios_map_irq
  split_ifs <;> rfl

/-! ## The busy-wait of the PHY calibration unit -/

/-- One unfolding of the busy-wait loop. -/
theorem wait_loop_unfold (hw : Hw) (retry : Nat) (t : Trace) :
    wait_pciephy_busy_loop hw retry t =
      (if u32 (hw t Win.pcie 0x90) &&& BUSY ≠ 0 then
        (if retry > WAITRETRY_MAX then
          ((-1 : Int), Event.printk "PCIE-PHY retry failed.\n" :: Event.mdelay 100 ::
            Event.rd Win.pcie 0x90 (u32 (hw t Win.pcie 0x90)) :: t)
        else
          wait_pciephy_busy_loop hw (retry + 1)
            (Event.mdelay 100 :: Event.rd Win.pcie 0x90 (u32 (hw t Win.pcie 0x90)) :: t))
      else ((0 : Int), Event.rd Win.pcie 0x90 (u32 (hw t Win.pcie 0x90)) :: t)) := by
  rw [wait_pciephy_busy_loop]
  simp only [pcie_r32, ioread32, mdelay, printk, PCIEPHY0_CFG]

/-- The busy-wait only reads, delays and logs: what it adds to the history is
passive. -/
theorem wait_loop_passive (hw : Hw) :
    ∀ (k retry : Nat) (t : Trace), WAITRETRY_MAX + 1 - retry = k →
      ∃ new : List Event, (wait_pciephy_busy_loop hw retry t).2 = new ++ t ∧
        ∀ e ∈ new, isPassive e = true := by
  intro k
  induction k with
  | zero =>
    intro retry t hk
    rw [wait_loop_unfold]
    have hr : retry > WAITRETRY_MAX := by simp only [WAITRETRY_MAX] at *; omega
    split_ifs
    · exact ⟨[Event.printk "PCIE-PHY retry failed.\n", Event.mdelay 100,
        Event.rd Win.pcie 0x90 (u32 (hw t Win.pcie 0x90))], rfl, by simp [isPassive]⟩
    · exact ⟨[Event.rd Win.pcie 0x90 (u32 (hw t Win.pcie 0x90))], rfl, by simp [isPassive]⟩
  | succ k ih =>
    intro retry t hk
    rw [wait_loop_unfold]
    split_ifs with hb hr
    · exact ⟨[Event.printk "PCIE-PHY retry failed.\n", Event.mdelay 100,
        Event.rd Win.pcie 0x90 (u32 (hw t Win.pcie 0x90))], rfl, by simp [isPassive]⟩
    · obtain ⟨new, hnew, hp⟩ := ih (retry + 1)
        (Event.mdelay 100 :: Event.rd Win.pcie 0x90 (u32 (hw t Win.pcie 0x90)) :: t)
        (by simp only [WAITRETRY_MAX] at *; omega)
      refine ⟨new ++ [Event.mdelay 100, Event.rd Win.pcie 0x90 (u32 (hw t Win.pcie 0x90))],
        by simp [hnew], ?_⟩
      intro e he
      rcases List.mem_append.mp he with h | h
      · exact hp e h
      · simp at h
        rcases h with h | h <;> subst h <;> rfl
    · exact ⟨[Event.rd Win.pcie 0x90 (u32 (hw t Win.pcie 0x90))], rfl, by simp [isPassive]⟩

theorem wait_pciephy_busy_passive (hw : Hw) (t : Trace) :
    ∃ new : List Event, (wait_pciephy_busy hw t).2 = new ++ t ∧
      ∀ e ∈ new, isPassive e = true :=
  wait_loop_passive hw _ 0 t rfl

/-- Passive events do not show in the window writes. -/
theorem windowWrites_passive (new : List Event) (t : Trace)
    (h : ∀ e ∈ new, isPassive e = true) : windowWrites (new ++ t) = windowWrites t := by
  induction new with
  | nil => rfl
  | cons e new ih =>
    have he : isPassive e = true := h e (List.mem_cons_self _ _)
    have ih1 := ih (fun x hx => h x (List.mem_cons_of_mem _ hx))
    cases e <;> simp_all [windowWrites, isWindowWrite, isPassive]

/-- Passive events do not register the controller. -/
theorem registrations_passive (new : List Event) (t : Trace)
    (h : ∀ e ∈ new, isPassive e = true) : registrations (new ++ t) = registrations t := by
  induction new with
  | nil => rfl
  | cons e new ih =>
    have he : isPassive e = true := h e (List.mem_cons_self _ _)
    have ih1 := ih (fun x hx => h x (List.mem_cons_of_mem _ hx))
    cases e <;> simp_all [registrations, isPassive, List.count_cons]

/-! ## Window writes and registrations through the bring-up blocks -/

theorem windowWrites_wait (hw : Hw) (t : Trace) :
    windowWrites (wait_pciephy_busy hw t).2 = windowWrites t := by
  obtain ⟨new, hnew, hp⟩ := wait_pciephy_busy_passive hw t
  rw [hnew, windowWrites_passive new t hp]

theorem registrations_wait (hw : Hw) (t : Trace) :
    registrations (wait_pciephy_busy hw t).2 = registrations t := by
  obtain ⟨new, hnew, hp⟩ := wait_pciephy_busy_passive hw t
  rw [hnew, registrations_passive new t hp]

theorem windowWrites_pcie_phy (hw : Hw) (addr val : Nat) (t : Trace) :
    windowWrites (pcie_phy hw addr val t) = windowWrites t := by
  simp only [pcie_phy, windowWrites_wait]
  simp [windowWrites, mdelay, pcie_w32, iowrite32, isWindowWrite, PCIEPHY0_CFG,
    RALINK_PCI0_BAR0SETUP_ADDR, RALINK_PCI0_IMBASEBAR0_ADDR, RALINK_PCI0_ID, RALINK_PCI0_CLASS,
    RALINK_PCI0_SUBID, RALINK_PCI_PCIMSK_ADDR]
  exact windowWrites_wait hw t

theorem registrations_pcie_phy (hw : Hw) (addr val : Nat) (t : Trace) :
    registrations (pcie_phy hw addr val t) = registrations t := by
  simp only [pcie_phy, registrations_wait]
  simp [registrations, mdelay, pcie_w32, iowrite32, List.count_cons]
  exact registrations_wait hw t

theorem windowWrites_sysc_m32 (hw : Hw) (clr set reg : Nat) (t : Trace) :
    windowWrites (rt_sysc_m32 hw clr set reg t) = windowWrites t := by
  simp [windowWrites, rt_sysc_m32, rt_sysc_r32, rt_sysc_w32, ioread32, iowrite32, isWindowWrite]

theorem registrations_sysc_m32 (hw : Hw) (clr set reg : Nat) (t : Trace) :
    registrations (rt_sysc_m32 hw clr set reg t) = registrations t := by
  simp [registrations, rt_sysc_m32, rt_sysc_r32, rt_sysc_w32, ioread32, iowrite32,
    List.count_cons]

theorem windowWrites_pcicfg_m32 (hw : Hw) (clr set : Nat) (t : Trace) :
    windowWrites (pcie_m32 hw clr set RALINK_PCI_PCICFG_ADDR t) = windowWrites t := by
  simp [windowWrites, pcie_m32, pcie_r32, pcie_w32, ioread32, iowrite32, isWindowWrite,
    RALINK_PCI_PCICFG_ADDR, RALINK_PCI0_BAR0SETUP_ADDR, RALINK_PCI0_IMBASEBAR0_ADDR,
    RALINK_PCI0_ID, RALINK_PCI0_CLASS, RALINK_PCI0_SUBID, RALINK_PCI_PCIMSK_ADDR]

theorem registrations_pcie_m32 (hw : Hw) (clr set reg : Nat) (t : Trace) :
    registrations (pcie_m32 hw clr set reg t) = registrations t := by
  simp [registrations, pcie_m32, pcie_r32, pcie_w32, ioread32, iowrite32, List.count_cons]

theorem windowWrites_cons_of_not (e : Event) (t : Trace) (h : isWindowWrite e = false) :
    windowWrites (e :: t) = windowWrites t := by
  simp [windowWrites, h]

theorem registrations_cons_of_ne (e : Event) (t : Trace)
    (h : e ≠ Event.register_pci_controller) :
    registrations (e :: t) = registrations t := by
  simp [registrations, List.count_cons, h]

theorem windowWrites_probe_calibrate (hw : Hw) (t : Trace) :
    windowWrites (probe_calibrate hw t) = windowWrites t := by
  simp only [probe_calibrate, mdelay, reset_control_assert, reset_control_deassert]
  rw [windowWrites_cons_of_not (Event.mdelay 100) _ rfl, windowWrites_sysc_m32,
    windowWrites_cons_of_not Event.reset_deassert _ rfl,
    windowWrites_sysc_m32, windowWrites_sysc_m32,
    windowWrites_cons_of_not Event.reset_assert _ rfl,
    windowWrites_pcicfg_m32, windowWrites_sysc_m32, windowWrites_pcie_phy,
    windowWrites_pcie_phy, windowWrites_pcie_phy]

theorem registrations_probe_calibrate (hw : Hw) (t : Trace) :
    registrations (probe_calibrate hw t) = registrations t := by
  simp only [probe_calibrate, mdelay, reset_control_assert, reset_control_deassert]
  rw [registrations_cons_of_ne _ _ (by simp), registrations_sysc_m32,
    registrations_cons_of_ne _ _ (by simp), registrations_sysc_m32, registrations_sysc_m32,
    registrations_cons_of_ne _ _ (by simp), registrations_pcie_m32, registrations_sysc_m32,
    registrations_pcie_phy, registrations_pcie_phy, registrations_pcie_phy]

theorem registrations_probe_clock_gen (hw : Hw) (t : Trace) :
    registrations (probe_clock_gen hw t) = registrations t := by
  simp only [probe_clock_gen, mdelay, reset_control_assert, reset_control_deassert]
  rw [registrations_cons_of_ne _ _ (by simp), registrations_pcie_m32,
    registrations_cons_of_ne _ _ (by simp), registrations_cons_of_ne _ _ (by simp),
    registrations_sysc_m32, registrations_sysc_m32, registrations_sysc_m32,
    registrations_cons_of_ne _ _ (by simp), registrations_cons_of_ne _ _ (by simp),
    registrations_sysc_m32]

theorem registrations_probe_no_card (hw : Hw) (t : Trace) :
    registrations (probe_no_card hw t) = registrations t := by
  simp only [probe_no_card, printk, reset_control_assert]
  rw [registrations_cons_of_ne _ _ (by simp), registrations_sysc_m32, registrations_sysc_m32,
    registrations_cons_of_ne _ _ (by simp)]

theorem registrations_probe_windows (hw : Hw) (t : Trace) :
    registrations (probe_windows hw t) = registrations t + 1 := by
  simp only [probe_windows, register_pci_controller, bridge_w32, pcie_w32, iowrite32]
  rw [registrations, List.count_cons_self, ← registrations, registrations_pcie_m32]
  simp [registrations, List.count_cons]

/-! ## The two exits of the bring-up -/

theorem and_bit_eq_zero (x i : Nat) : x &&& (1 <<< i) = 0 ↔ x.testBit i = false := by
  rw [Nat.one_shiftLeft, Nat.and_two_pow]
  cases x.testBit i <;> simp

/-- The probe on the PLL-unlock path. -/
theorem probe_unlocked_eq (hw : Hw) (pdev : platform_device) (t : Trace) (hres : acquired pdev)
    (hpll : (pll_status hw t).testBit 23 = false) :
    mt7620a_pci_probe hw pdev t =
      (0, probe_pll_unlock hw (rt_sysc_r32 hw PPLL_CFG1 (probe_calibrate hw t)).2) := by
  obtain ⟨h1, h2, h3⟩ := hres
  have h : (rt_sysc_r32 hw PPLL_CFG1 (probe_calibrate hw t)).1 &&& (1 <<< 23) = 0 :=
    (and_bit_eq_zero _ 23).mpr hpll
  simp only [mt7620a_pci_probe, h1, h2, h3, h, if_true, Bool.true_eq_false, if_false]

/-- The probe on the path on which the PLL has locked: whatever the link
status, the window block runs last. -/
theorem probe_locked_eq (hw : Hw) (pdev : platform_device) (t : Trace) (hres : acquired pdev)
    (hpll : (pll_status hw t).testBit 23 = true) :
    mt7620a_pci_probe hw pdev t =
      (0, probe_windows hw
        (if (link_status hw t).testBit 0 = false then
          probe_no_card hw (pcie_r32 hw RALINK_PCI0_STATUS
            (probe_clock_gen hw (rt_sysc_r32 hw PPLL_CFG1 (probe_calibrate hw t)).2)).2
        else
          (pcie_r32 hw RALINK_PCI0_STATUS
            (probe_clock_gen hw (rt_sysc_r32 hw PPLL_CFG1 (probe_calibrate hw t)).2)).2)) := by
  obtain ⟨h1, h2, h3⟩ := hres
  have h : ¬ (rt_sysc_r32 hw PPLL_CFG1 (probe_calibrate hw t)).1 &&& (1 <<< 23) = 0 := by
    rw [and_bit_eq_zero]
    simpa [pll_status] using hpll
  have hl : ((pcie_r32 hw RALINK_PCI0_STATUS
      (probe_clock_gen hw (rt_sysc_r32 hw PPLL_CFG1 (probe_calibrate hw t)).2)).1 &&& 0x1 = 0) ↔
      (link_status hw t).testBit 0 = false := and_bit_eq_zero _ 0
  simp only [mt7620a_pci_probe, h1, h2, h3, h, if_false, Bool.true_eq_false, hl]

/-- Bits of the value a bitmask read-modify-write puts back. -/
theorem m32_value_testBit (a clr set i : Nat) :
    (u32 ((a &&& not32 clr) ||| u32 set)).testBit i =
      (decide (i < 32) && ((a.testBit i && !clr.testBit i) || set.testBit i)) := by
  simp only [u32, Nat.testBit_mod_two_pow, Nat.testBit_or, Nat.testBit_and, testBit_not32]
  by_cases h : i < 32 <;> simp [h]

theorem u32_testBit (x i : Nat) (h : i < 32) : (u32 x).testBit i = x.testBit i := by
  rw [u32, Nat.testBit_mod_two_pow]
  simp [h]

/-- When every read of the PHY control register shows the busy flag, the loop
entered with `retry` polls `WAITRETRY_MAX + 2 - retry` times and fails. -/
theorem wait_loop_always_busy (hw : Hw)
    (hbusy : ∀ t : Trace, (hw t Win.pcie PCIEPHY0_CFG).testBit 31 = true) :
    ∀ (k retry : Nat) (t : Trace), retry + k = WAITRETRY_MAX + 1 →
      (wait_pciephy_busy_loop hw retry t).1 = -1 ∧
      phyPolls (wait_pciephy_busy_loop hw retry t).2 = phyPolls t + (k + 1) := by
  have hb : ∀ t : Trace, u32 (hw t Win.pcie 0x90) &&& BUSY ≠ 0 := by
    intro t
    have h1 : (u32 (hw t Win.pcie 0x90)).testBit 31 = true := by
      rw [u32_testBit _ _ (by norm_num)]
      exact hbusy t
    intro h0
    have h2 := (and_bit_eq_zero (u32 (hw t Win.pcie 0x90)) 31).mp h0
    rw [h1] at h2
    exact Bool.noConfusion h2
  intro k
  induction k with
  | zero =>
    intro retry t hk
    have hr : retry > WAITRETRY_MAX := by simp only [WAITRETRY_MAX] at *; omega
    rw [wait_loop_unfold, if_pos (hb t), if_pos hr]
    simp [phyPolls, isPhyPoll, PCIEPHY0_CFG]
  | succ k ih =>
    intro retry t hk
    have hr : ¬ retry > WAITRETRY_MAX := by simp only [WAITRETRY_MAX] at *; omega
    rw [wait_loop_unfold, if_pos (hb t), if_neg hr]
    obtain ⟨h1, h2⟩ := ih (retry + 1)
      (Event.mdelay 100 :: Event.rd Win.pcie 0x90 (u32 (hw t Win.pcie 0x90)) :: t) (by omega)
    refine ⟨h1, ?_⟩
    rw [h2]
    simp [phyPolls, isPhyPoll, PCIEPHY0_CFG]
    omega

/-! ## PHY calibration retry bound -/

/-- C5 (code at the failing input): on a PHY control register that reads
0x80000000 forever, `wait_pciephy_busy` returns -1 after 12 reads of the
register, one more than `WAITRETRY_MAX + 1` = 11. -/
theorem busy_wait_polls_twelve_times :
    (wait_pciephy_busy (constHw 0x80000000) []).1 = -1 ∧
    phyPolls (wait_pciephy_busy (constHw 0x80000000) []).2 = 12 ∧
    WAITRETRY_MAX + 1 = 11 := by
  have h := wait_loop_always_busy (constHw 0x80000000)
    (fun _ => show (0x80000000 : Nat).testBit 31 = true by decide) 11 0 [] rfl
  exact ⟨h.1, h.2, rfl⟩

/-! ## Outcomes of the bring-up -/

theorem lastWrite_probe_windows (hw : Hw) (t : Trace) :
    lastWrite Win.pcie 0x10 (probe_windows hw t) = some 0x7FFF0000 ∧
    lastWrite Win.pcie 0x18 (probe_windows hw t) = some 0 ∧
    lastWrite Win.bridge 0x28 (probe_windows hw t) = some 0xFFFFFFFF ∧
    lastWrite Win.bridge 0x2C (probe_windows hw t) = some 0x10160000 := by
  simp [probe_windows, register_pci_controller, pcie_m32, pcie_r32, pcie_w32, bridge_w32,
    ioread32, iowrite32, lastWrite, u32, RALINK_PCI_MEMBASE, RALINK_PCI_IOBASE,
    RALINK_PCI0_BAR0SETUP_ADDR, RALINK_PCI0_IMBASEBAR0_ADDR, RALINK_PCI0_ID, RALINK_PCI0_CLASS,
    RALINK_PCI0_SUBID, RALINK_PCI_PCIMSK_ADDR, RALINK_PCI_IO_MAP_BASE, MEMORY_BASE]

theorem resetAsserted_probe_windows (hw : Hw) (t : Trace) :
    resetAsserted (probe_windows hw t) = resetAsserted t := by
  simp [probe_windows, register_pci_controller, pcie_m32, pcie_r32, pcie_w32, bridge_w32,
    ioread32, iowrite32, resetAsserted]

theorem resetAsserted_probe_no_card (hw : Hw) (t : Trace) :
    resetAsserted (probe_no_card hw t) = some true := by
  simp [probe_no_card, printk, reset_control_assert, rt_sysc_m32, rt_sysc_r32, rt_sysc_w32,
    ioread32, iowrite32, resetAsserted]

/-- Once the PLL has locked the probe registers the controller, whatever the
link status reads. -/
theorem registrations_probe_locked (hw : Hw) (pdev : platform_device) (t : Trace)
    (hres : acquired pdev) (hpll : (pll_status hw t).testBit 23 = true) :
    registrations (mt7620a_pci_probe hw pdev t).2 = registrations t + 1 := by
  rw [probe_locked_eq hw pdev t hres hpll]
  simp only [registrations_probe_windows]
  have hrd : ∀ (w : Win) (reg : Nat) (u : Trace),
      registrations (ioread32 hw w reg u).2 = registrations u := by
    intro w reg u
    exact registrations_cons_of_ne _ _ (by simp)
  split_ifs
  · rw [registrations_probe_no_card, pcie_r32, hrd, registrations_probe_clock_gen, rt_sysc_r32,
      hrd, registrations_probe_calibrate]
  · rw [pcie_r32, hrd, registrations_probe_clock_gen, rt_sysc_r32, hrd,
      registrations_probe_calibrate]

theorem lastWrite_sysc_m32 (hw : Hw) (clr set reg : Nat) (t : Trace) :
    lastWrite Win.sysc reg (rt_sysc_m32 hw clr set reg t) =
      some (u32 ((u32 (hw t Win.sysc reg) &&& not32 clr) ||| u32 set)) := by
  simp [rt_sysc_m32, rt_sysc_r32, rt_sysc_w32, ioread32, iowrite32, lastWrite]

/-- C6: for every device model and history in which resource acquisition
succeeds, if bit 23 of `PPLL_CFG1` reads 0 after the first 100-unit wait,
`mt7620a_pci_probe` returns 0 with the reset line asserted and a last write
to `CLKCFG1` (system-controller offset 0x30) whose bit 26 is clear; it adds no
write to MEMBASE, IOBASE, BAR0SETUP, IMBASEBAR0, ID, CLASS, SUBID or PCIMSK
and does not register the controller. -/
theorem pll_unlock_ends_disabled (hw : Hw) (pdev : platform_device) (t : Trace)
    (hres : acquired pdev) (hpll : (pll_status hw t).testBit 23 = false) :
    (mt7620a_pci_probe hw pdev t).1 = 0 ∧
    resetAsserted (mt7620a_pci_probe hw pdev t).2 = some true ∧
    (∃ v : Nat, lastWrite Win.sysc 0x30 (mt7620a_pci_probe hw pdev t).2 = some v ∧
      v.testBit 26 = false) ∧
    windowWrites (mt7620a_pci_probe hw pdev t).2 = windowWrites t ∧
    registrations (mt7620a_pci_probe hw pdev t).2 = registrations t := by
  rw [probe_unlocked_eq hw pdev t hres hpll]
  refine ⟨rfl, ?_, ?_, ?_, ?_⟩
  · simp [probe_pll_unlock, printk, reset_control_assert, rt_sysc_m32, rt_sysc_r32, rt_sysc_w32,
      ioread32, iowrite32, resetAsserted]
  · refine ⟨_, lastWrite_sysc_m32 hw (BIT 26) 0 0x30 _, ?_⟩
    have hbit : (BIT 26).testBit 26 = true := by decide
    rw [m32_value_testBit, hbit]
    simp
  · simp only [probe_pll_unlock, printk, reset_control_assert, windowWrites_sysc_m32]
    rw [windowWrites_cons_of_not Event.reset_assert _ rfl,
      windowWrites_cons_of_not (Event.printk _) _ rfl, rt_sysc_r32, ioread32,
      windowWrites_cons_of_not (Event.rd _ _ _) _ rfl, windowWrites_probe_calibrate]
  · simp only [probe_pll_unlock, printk, reset_control_assert, registrations_sysc_m32]
    rw [registrations_cons_of_ne _ _ (by simp), registrations_cons_of_ne _ _ (by simp),
      rt_sysc_r32, ioread32, registrations_cons_of_ne _ _ (by simp),
      registrations_probe_calibrate]

/-- C6 witness: a device every register of which reads 0 forever, probed from
the empty history. -/
theorem pll_unlock_ends_disabled_witness :
    acquired okDev ∧ (pll_status (constHw 0) []).testBit 23 = false ∧
    (mt7620a_pci_probe (constHw 0) okDev []).1 = 0 ∧
    resetAsserted (mt7620a_pci_probe (constHw 0) okDev []).2 = some true ∧
    (∃ v : Nat, lastWrite Win.sysc 0x30 (mt7620a_pci_probe (constHw 0) okDev []).2 = some v ∧
      v.testBit 26 = false) ∧
    windowWrites (mt7620a_pci_probe (constHw 0) okDev []).2 = windowWrites [] ∧
    registrations (mt7620a_pci_probe (constHw 0) okDev []).2 = registrations [] :=
  ⟨⟨rfl, rfl, rfl⟩, by decide,
    pll_unlock_ends_disabled (constHw 0) okDev [] ⟨rfl, rfl, rfl⟩ (by decide)⟩

/-- C7 (code at the failing input): on a device whose PLL reports lock and
whose link-status register reads 0, probed from the empty history with all
resources acquired, `mt7620a_pci_probe` takes the "no card" branch (the reset
line ends asserted) and then still runs the window block and registers the
controller: BAR0SETUP and MEMBASE are written and one registration is
recorded. -/
theorem dead_link_still_registered :
    (pll_status (lockedHw 0) []).testBit 23 = true ∧
    (link_status (lockedHw 0) []).testBit 0 = false ∧
    resetAsserted (mt7620a_pci_probe (lockedHw 0) okDev []).2 = some true ∧
    registrations (mt7620a_pci_probe (lockedHw 0) okDev []).2 = 1 ∧
    lastWrite Win.pcie 0x10 (mt7620a_pci_probe (lockedHw 0) okDev []).2 = some 0x7FFF0000 ∧
    lastWrite Win.bridge 0x28 (mt7620a_pci_probe (lockedHw 0) okDev []).2 = some 0xFFFFFFFF := by
  have hres : acquired okDev := ⟨rfl, rfl, rfl⟩
  have hpll : (pll_status (lockedHw 0) []).testBit 23 = true := by decide
  have hlink : (link_status (lockedHw 0) []).testBit 0 = false := by decide
  refine ⟨hpll, hlink, ?_, registrations_probe_locked (lockedHw 0) okDev [] hres hpll, ?_, ?_⟩
  · rw [probe_locked_eq (lockedHw 0) okDev [] hres hpll, if_pos hlink]
    exact (resetAsserted_probe_windows _ _).trans (resetAsserted_probe_no_card _ _)
  · rw [probe_locked_eq (lockedHw 0) okDev [] hres hpll]
    exact (lastWrite_probe_windows _ _).1
  · rw [probe_locked_eq (lockedHw 0) okDev [] hres hpll]
    exact (lastWrite_probe_windows _ _).2.2.1

theorem resetAsserted_probe_clock_gen (hw : Hw) (t : Trace) :
    resetAsserted (probe_clock_gen hw t) = some false := by
  simp [probe_clock_gen, mdelay, reset_control_assert, reset_control_deassert, pcie_m32,
    pcie_r32, pcie_w32, ioread32, iowrite32, resetAsserted]

/-- C8: for every device model and history in which resource acquisition
succeeds, if bit 23 of `PPLL_CFG1` reads 1 and bit 0 of the link-status
register reads 1, `mt7620a_pci_probe` returns 0 with the reset line
deasserted, having registered the controller once, as its last action, and
the last values written are 0x7FFF0000 to BAR0SETUP (PCIe offset 0x10), 0 to
IMBASEBAR0 (PCIe offset 0x18), 0xFFFFFFFF to MEMBASE (bridge offset 0x28) and
0x10160000 to IOBASE (bridge offset 0x2C). -/
theorem link_up_programs_windows (hw : Hw) (pdev : platform_device) (t : Trace)
    (hres : acquired pdev) (hpll : (pll_status hw t).testBit 23 = true)
    (hlink : (link_status hw t).testBit 0 = true) :
    (mt7620a_pci_probe hw pdev t).1 = 0 ∧
    resetAsserted (mt7620a_pci_probe hw pdev t).2 = some false ∧
    registrations (mt7620a_pci_probe hw pdev t).2 = registrations t + 1 ∧
    (mt7620a_pci_probe hw pdev t).2.head? = some Event.register_pci_controller ∧
    lastWrite Win.pcie 0x10 (mt7620a_pci_probe hw pdev t).2 = some 0x7FFF0000 ∧
    lastWrite Win.pcie 0x18 (mt7620a_pci_probe hw pdev t).2 = some 0 ∧
    lastWrite Win.bridge 0x28 (mt7620a_pci_probe hw pdev t).2 = some 0xFFFFFFFF ∧
    lastWrite Win.bridge 0x2C (mt7620a_pci_probe hw pdev t).2 = some 0x10160000 ∧
    RALINK_PCI_IO_MAP_BASE = 0x10160000 := by
  have hreg := registrations_probe_locked hw pdev t hres hpll
  rw [probe_locked_eq hw pdev t hres hpll] at hreg ⊢
  obtain ⟨h1, h2, h3, h4⟩ := lastWrite_probe_windows hw
    (if (link_status hw t).testBit 0 = false then
      probe_no_card hw (pcie_r32 hw RALINK_PCI0_STATUS
        (probe_clock_gen hw (rt_sysc_r32 hw PPLL_CFG1 (probe_calibrate hw t)).2)).2
    else
      (pcie_r32 hw RALINK_PCI0_STATUS
        (probe_clock_gen hw (rt_sysc_r32 hw PPLL_CFG1 (probe_calibrate hw t)).2)).2)
  refine ⟨rfl, ?_, hreg, rfl, h1, h2, h3, h4, rfl⟩
  have hl : ¬ (link_status hw t).testBit 0 = false := by simp [hlink]
  rw [if_neg hl]
  have hwin := resetAsserted_probe_windows hw (pcie_r32 hw RALINK_PCI0_STATUS
    (probe_clock_gen hw (rt_sysc_r32 hw PPLL_CFG1 (probe_calibrate hw t)).2)).2
  have hgen := resetAsserted_probe_clock_gen hw
    (rt_sysc_r32 hw PPLL_CFG1 (probe_calibrate hw t)).2
  exact hwin.trans hgen

/-- C8 witness: a device every register of which reads 0x00800001 forever
(PLL-lock bit 23 and link bit 0 set, busy bit 31 clear), probed from the empty
history. -/
theorem link_up_programs_windows_witness :
    acquired okDev ∧ (pll_status (constHw 0x00800001) []).testBit 23 = true ∧
    (link_status (constHw 0x00800001) []).testBit 0 = true ∧
    (mt7620a_pci_probe (constHw 0x00800001) okDev []).1 = 0 ∧
    resetAsserted (mt7620a_pci_probe (constHw 0x00800001) okDev []).2 = some false ∧
    registrations (mt7620a_pci_probe (constHw 0x00800001) okDev []).2 = registrations [] + 1 ∧
    (mt7620a_pci_probe (constHw 0x00800001) okDev []).2.head? =
      some Event.register_pci_controller ∧
    lastWrite Win.pcie 0x10 (mt7620a_pci_probe (constHw 0x00800001) okDev []).2 =
      some 0x7FFF0000 ∧
    lastWrite Win.pcie 0x18 (mt7620a_pci_probe (constHw 0x00800001) okDev []).2 = some 0 ∧
    lastWrite Win.bridge 0x28 (mt7620a_pci_probe (constHw 0x00800001) okDev []).2 =
      some 0xFFFFFFFF ∧
    lastWrite Win.bridge 0x2C (mt7620a_pci_probe (constHw 0x00800001) okDev []).2 =
      some 0x10160000 ∧
    RALINK_PCI_IO_MAP_BASE = 0x10160000 :=
  ⟨⟨rfl, rfl, rfl⟩, by decide, by decide,
    link_up_programs_windows (constHw 0x00800001) okDev [] ⟨rfl, rfl, rfl⟩ (by decide)
      (by decide)⟩

/-! ## Scenario D: the bridge function in the IRQ routing policy -/

/-- The byte a merge puts into the target lane. -/
theorem merge_byteLane_in (old v lane : Nat) (hl : lane ≤ 3) (hv : v < 2 ^ 8) :
    byteLane (u32 ((old &&& not32 ((2 ^ 8 - 1) <<< (8 * lane))) ||| u32 (u32 v <<< (8 * lane))))
      lane = v := by
  have h := merge_read_back old v (8 * lane) 8 (by omega)
  rw [u32_u32] at h
  rw [byteLane]
  have hm : v &&& (2 ^ 8 - 1) = v := by
    rw [Nat.and_pow_two_sub_one_eq_mod]
    exact Nat.mod_eq_of_lt hv
  rw [hm] at h
  exact h

/-- The half-word a merge puts into the target lanes. -/
theorem merge_halfword_in (old v lane : Nat) (hl : lane ≤ 2) (hv : v < 2 ^ 16) :
    (u32 ((old &&& not32 ((2 ^ 16 - 1) <<< (8 * lane))) ||| u32 (u32 v <<< (8 * lane))) >>>
      (8 * lane)) &&& 0xffff = v := by
  have h := merge_read_back old v (8 * lane) 16 (by omega)
  rw [u32_u32] at h
  have hm : v &&& (2 ^ 16 - 1) = v := by
    rw [Nat.and_pow_two_sub_one_eq_mod]
    exact Nat.mod_eq_of_lt hv
  rw [hm] at h
  exact h

/-- Effect of the framework's byte write: one read-modify-write of the dword
at the device's token, which puts the byte into lane `where_ & 3` and keeps
the other lanes. -/
theorem byte_write_effect (hw : Hw) (dev : pci_dev) (where_ v : Nat) (t : Trace) :
    ∃ d n : Nat,
      (pci_write_config_byte hw dev where_ v t).2 =
        Event.wr Win.bridge 0x24 n :: Event.rd Win.bridge 0x24 d ::
          Event.wr Win.bridge 0x20 (config_address dev.bus dev.devfn where_) :: t ∧
      byteLane n (where_ &&& 3) = v % 2 ^ 8 ∧
      ∀ k : Nat, k ≠ (where_ &&& 3) → byteLane n k = byteLane d k := by
  have hlane : (where_ &&& 3) ≤ 3 := Nat.and_le_right
  have hv : v % 2 ^ 8 < 2 ^ 8 := Nat.mod_lt _ (by norm_num)
  refine ⟨_, _, pci_config_write_trace hw dev.bus dev.devfn where_ 1 (v % 2 ^ 8) t, ?_, ?_⟩
  · simp only [if_true, lane_shift_eq]
    exact merge_byteLane_in _ (v % 2 ^ 8) (where_ &&& 3) hlane hv
  · intro k hk
    simp only [if_true, lane_shift_eq]
    exact merge_byteLane _ (v % 2 ^ 8) (where_ &&& 3) 1 k (u32_lt _) hv (by omega)

/-- Effect of the framework's word read at an offset whose lane is 0. -/
theorem word_read_effect (hw : Hw) (dev : pci_dev) (where_ : Nat) (t : Trace) :
    ∃ d : Nat,
      (pci_read_config_word hw dev where_ t).trace =
        Event.rd Win.bridge 0x24 d ::
          Event.wr Win.bridge 0x20 (config_address dev.bus dev.devfn where_) :: t ∧
      (pci_read_config_word hw dev where_ t).val =
        ((d >>> (8 * (where_ &&& 3))) &&& 0xffff) % 2 ^ 16 := by
  refine ⟨_, pci_config_read_trace hw dev.bus dev.devfn where_ 2 0 t, ?_⟩
  simp only [pci_read_config_word, pci_config_read_val, show (2 : Nat) ≠ 1 by decide, if_false,
    if_true, lane_shift_eq]

/-- Effect of the framework's word write at a lane below 3. -/
theorem word_write_effect (hw : Hw) (dev : pci_dev) (where_ v : Nat) (t : Trace)
    (hl : (where_ &&& 3) ≤ 2) :
    ∃ d n : Nat,
      (pci_write_config_word hw dev where_ v t).2 =
        Event.wr Win.bridge 0x24 n :: Event.rd Win.bridge 0x24 d ::
          Event.wr Win.bridge 0x20 (config_address dev.bus dev.devfn where_) :: t ∧
      (n >>> (8 * (where_ &&& 3))) &&& 0xffff = v % 2 ^ 16 ∧
      ∀ k : Nat, (k < (where_ &&& 3) ∨ (where_ &&& 3) + 2 ≤ k) → byteLane n k = byteLane d k := by
  have hv : v % 2 ^ 16 < 2 ^ 16 := Nat.mod_lt _ (by norm_num)
  refine ⟨_, _, pci_config_write_trace hw dev.bus dev.devfn where_ 2 (v % 2 ^ 16) t, ?_, ?_⟩
  · simp only [show (2 : Nat) ≠ 1 by decide, if_false, if_true, lane_shift_eq]
    exact merge_halfword_in _ (v % 2 ^ 16) (where_ &&& 3) hl hv
  · intro k hk
    simp only [show (2 : Nat) ≠ 1 by decide, if_false, if_true, lane_shift_eq]
    exact merge_byteLane _ (v % 2 ^ 16) (where_ &&& 3) 2 k (u32_lt _) hv hk

/-- The command word the housekeeping block writes back: the word read with
the three enable bits set. -/
theorem command_word (x : Nat) :
    (((x &&& 0xffff) % 2 ^ 16 ||| PCI_COMMAND_MASTER ||| PCI_COMMAND_IO ||| PCI_COMMAND_MEMORY) %
      2 ^ 16) % 2 ^ 16 = (x &&& 0xffff) ||| 0x7 := by
  have hx : (x &&& 0xffff) < 2 ^ 16 := Nat.and_lt_two_pow x (by norm_num)
  have h7 : (0x7 : Nat) < 2 ^ 16 := by norm_num
  rw [Nat.mod_mod, Nat.mod_eq_of_lt hx, Nat.lor_assoc, Nat.lor_assoc,
    show ( PCI_COMMAND_MASTER ||| ( PCI_COMMAND_IO ||| PCI_COMMAND_MEMORY)) = 0x7 by decide]
  exact Nat.mod_eq_of_lt (Nat.or_lt_two_pow hx h7)

/-- What the housekeeping block adds to a history, access by access. -/
theorem housekeeping_effect (hw : Hw) (dev : pci_dev) (t : Trace) :
    ∃ d1 n1 d2 n2 d3 d4 n4 d5 n5 : Nat,
      map_irq_housekeeping hw dev t =
        Event.wr Win.bridge 0x24 n5 :: Event.rd Win.bridge 0x24 d5 ::
        Event.wr Win.bridge 0x20 (config_address dev.bus dev.devfn 0x3c) ::
        Event.wr Win.bridge 0x24 n4 :: Event.rd Win.bridge 0x24 d4 ::
        Event.wr Win.bridge 0x20 (config_address dev.bus dev.devfn 0x04) ::
        Event.rd Win.bridge 0x24 d3 ::
        Event.wr Win.bridge 0x20 (config_address dev.bus dev.devfn 0x04) ::
        Event.wr Win.bridge 0x24 n2 :: Event.rd Win.bridge 0x24 d2 ::
        Event.wr Win.bridge 0x20 (config_address dev.bus dev.devfn 0x0d) ::
        Event.wr Win.bridge 0x24 n1 :: Event.rd Win.bridge 0x24 d1 ::
        Event.wr Win.bridge 0x20 (config_address dev.bus dev.devfn 0x0c) :: t ∧
      (byteLane n1 0 = 0x14 ∧ ∀ k : Nat, k ≠ 0 → byteLane n1 k = byteLane d1 k) ∧
      (byteLane n2 1 = 0xFF ∧ ∀ k : Nat, k ≠ 1 → byteLane n2 k = byteLane d2 k) ∧
      (n4 &&& 0xffff = (d3 &&& 0xffff) ||| 0x7 ∧
        ∀ k : Nat, 2 ≤ k → byteLane n4 k = byteLane d4 k) ∧
      (byteLane n5 0 = dev.irq % 2 ^ 8 ∧ ∀ k : Nat, k ≠ 0 → byteLane n5 k = byteLane d5 k) := by
  obtain ⟨d1, n1, e1, a1, b1⟩ := byte_write_effect hw dev PCI_CACHE_LINE_SIZE 0x14 t
  obtain ⟨d2, n2, e2, a2, b2⟩ := byte_write_effect hw dev PCI_LATENCY_TIMER 0xFF
    (pci_write_config_byte hw dev PCI_CACHE_LINE_SIZE 0x14 t).2
  obtain ⟨d3, e3, a3⟩ := word_read_effect hw dev PCI_COMMAND
    (pci_write_config_byte hw dev PCI_LATENCY_TIMER 0xFF
      (pci_write_config_byte hw dev PCI_CACHE_LINE_SIZE 0x14 t).2).2
  obtain ⟨d4, n4, e4, a4, b4⟩ := word_write_effect hw dev PCI_COMMAND
    (((pci_read_config_word hw dev PCI_COMMAND
      (pci_write_config_byte hw dev PCI_LATENCY_TIMER 0xFF
        (pci_write_config_byte hw dev PCI_CACHE_LINE_SIZE 0x14 t).2).2).val |||
      PCI_COMMAND_MASTER ||| PCI_COMMAND_IO ||| PCI_COMMAND_MEMORY) % 2 ^ 16)
    (pci_read_config_word hw dev PCI_COMMAND
      (pci_write_config_byte hw dev PCI_LATENCY_TIMER 0xFF
        (pci_write_config_byte hw dev PCI_CACHE_LINE_SIZE 0x14 t).2).2).trace (by decide)
  obtain ⟨d5, n5, e5, a5, b5⟩ := byte_write_effect hw dev PCI_INTERRUPT_LINE dev.irq
    (pci_write_config_word hw dev PCI_COMMAND
      (((pci_read_config_word hw dev PCI_COMMAND
        (pci_write_config_byte hw dev PCI_LATENCY_TIMER 0xFF
          (pci_write_config_byte hw dev PCI_CACHE_LINE_SIZE 0x14 t).2).2).val |||
        PCI_COMMAND_MASTER ||| PCI_COMMAND_IO ||| PCI_COMMAND_MEMORY) % 2 ^ 16)
      (pci_read_config_word hw dev PCI_COMMAND
        (pci_write_config_byte hw dev PCI_LATENCY_TIMER 0xFF
          (pci_write_config_byte hw dev PCI_CACHE_LINE_SIZE 0x14 t).2).2).trace).2
  refine ⟨d1, n1, d2, n2, d3, d4, n4, d5, n5, ?_, ⟨a1, b1⟩, ⟨a2, b2⟩, ⟨?_, ?_⟩, ⟨a5, b5⟩⟩
  · simp only [map_irq_housekeeping]
    rw [e5, e4, e3, e2, e1]
    rfl
  · have h0 : 8 * ( PCI_COMMAND &&& 3) = 0 := by decide
    rw [h0, Nat.shiftRight_zero] at a4 a3
    rw [a4, a3]
    exact command_word d3
  · intro k hk
    exact b4 k (Or.inr (by simpa [PCI_COMMAND] using hk))

/-- C11 (as stated, refuted): for a device on bus 2, slot 0, an unexpected
topology, `pcibios_map_irq` logs the bus and the slot and returns 0 without
touching any register: no cache-line-size, latency-timer or command access is
made. -/
theorem housekeeping_skipped_on_unexpected_topology :
    pcibios_map_irq (constHw 0) { bus := { number := 2 }, devfn := 0, irq := 0 } 0 1 [] =
      (0, [Event.printk "bus=0x2, slot = 0x0\n"]) := by
  decide

/-- C11 (amended): whatever the device model, pin and history, for
(bus, slot) = (0, 0) and (1, 0), the two locations the policy services,
`pcibios_map_irq` performs on the device's own configuration space, in this
order: a byte write at the cache-line-size register (0x0c) that puts 0x14 into
byte lane 0 and keeps the other lanes of the dword, a byte write at the
latency-timer register (0x0d) that puts 0xFF into byte lane 1 and keeps the
other lanes, a read of the dword of the command register (0x04), and a
write-back of that dword whose low half-word is the half-word read with the
bus-master, I/O and memory-enable bits (0x7) set and its other bits as read,
the upper half-word kept as the write's own read found it.  For every other
(bus, slot) the function returns 0 and the only thing it adds to the history
is the log line that names the bus and the slot in hexadecimal: it accesses no
register. -/
theorem map_irq_housekeeping_by_location (hw : Hw) (dev : pci_dev) (slot pin : Nat)
    (t : Trace) :
    (((dev.bus.number = 0 ∨ dev.bus.number = 1) ∧ slot = 0) →
      ∃ (pre : Trace) (post : List Event) (d1 n1 d2 n2 cmd d4 n4 : Nat),
        t <:+ pre ∧
        (pcibios_map_irq hw dev slot pin t).2 =
          post ++
          (Event.wr Win.bridge 0x24 n4 :: Event.rd Win.bridge 0x24 d4 ::
          Event.wr Win.bridge 0x20 (config_address dev.bus dev.devfn 0x04) ::
          Event.rd Win.bridge 0x24 cmd ::
          Event.wr Win.bridge 0x20 (config_address dev.bus dev.devfn 0x04) ::
          Event.wr Win.bridge 0x24 n2 :: Event.rd Win.bridge 0x24 d2 ::
          Event.wr Win.bridge 0x20 (config_address dev.bus dev.devfn 0x0d) ::
          Event.wr Win.bridge 0x24 n1 :: Event.rd Win.bridge 0x24 d1 ::
          Event.wr Win.bridge 0x20 (config_address dev.bus dev.devfn 0x0c) :: pre) ∧
        (byteLane n1 0 = 0x14 ∧ ∀ k : Nat, k ≠ 0 → byteLane n1 k = byteLane d1 k) ∧
        (byteLane n2 1 = 0xFF ∧ ∀ k : Nat, k ≠ 1 → byteLane n2 k = byteLane d2 k) ∧
        (n4 &&& 0xffff = (cmd &&& 0xffff) ||| 0x7 ∧
          ∀ k : Nat, 2 ≤ k → byteLane n4 k = byteLane d4 k)) ∧
    (¬ ((dev.bus.number = 0 ∨ dev.bus.number = 1) ∧ slot = 0) →
      pcibios_map_irq hw dev slot pin t =
        (0, Event.printk ("bus=0x" ++ printk_hex dev.bus.number ++ ", slot = 0x" ++
          printk_hex slot ++ "\n") :: t)) := by
  constructor
  · rintro ⟨hbus, hslot⟩
    have key : ∃ pre : Trace, t <:+ pre ∧
        (pcibios_map_irq hw dev slot pin t).2 = map_irq_housekeeping hw dev pre := by
      unfold pcibios_map_irq
      rcases hbus with h0 | h1
      · rw [if_pos ⟨h0, hslot⟩]
        refine ⟨_, ?_, rfl⟩
        rw [pci_config_read_trace, pci_config_write_trace]
        exact ⟨[_, _, _, _, _, _], rfl⟩
      · have hne : ¬ (dev.bus.number = 0 ∧ slot = 0) := by omega
        rw [if_neg hne, if_pos ⟨h1, hslot⟩]
        exact ⟨t, List.suffix_refl t, rfl⟩
    obtain ⟨pre, hpre, heq⟩ := key
    obtain ⟨d1, n1, d2, n2, d3, d4, n4, d5, n5, he, f1, f2, f4, _⟩ :=
      housekeeping_effect hw dev pre
    refine ⟨pre, [Event.wr Win.bridge 0x24 n5, Event.rd Win.bridge 0x24 d5,
      Event.wr Win.bridge 0x20 (config_address dev.bus dev.devfn 0x3c)],
      d1, n1, d2, n2, d3, d4, n4, hpre, ?_, f1, f2, f4⟩
    rw [heq, he]
    rfl
  · intro hother
    have h0 : ¬ (dev.bus.number = 0 ∧ slot = 0) := fun h => hother ⟨Or.inl h.1, h.2⟩
    have h1 : ¬ (dev.bus.number = 1 ∧ slot = 0x0) := fun h => hother ⟨Or.inr h.1, h.2⟩
    unfold pcibios_map_irq
    rw [if_neg h0, if_neg h1]
    rfl

/-- C11 witness: the downstream endpoint (bus 1, devfn 0, slot 0) is serviced;
a device on bus 3, slot 2 is not, and the call only logs
"bus=0x3, slot = 0x2". -/
theorem map_irq_housekeeping_by_location_witness :
    (((1 : Nat) = 0 ∨ (1 : Nat) = 1) ∧ (0 : Nat) = 0) ∧
    (∃ (pre : Trace) (post : List Event) (d1 n1 d2 n2 cmd d4 n4 : Nat),
      [] <:+ pre ∧
      (pcibios_map_irq (constHw 0) { bus := { number := 1 }, devfn := 0, irq := 0 } 0 1 []).2 =
        post ++
        (Event.wr Win.bridge 0x24 n4 :: Event.rd Win.bridge 0x24 d4 ::
        Event.wr Win.bridge 0x20 (config_address { number := 1 } 0 0x04) ::
        Event.rd Win.bridge 0x24 cmd ::
        Event.wr Win.bridge 0x20 (config_address { number := 1 } 0 0x04) ::
        Event.wr Win.bridge 0x24 n2 :: Event.rd Win.bridge 0x24 d2 ::
        Event.wr Win.bridge 0x20 (config_address { number := 1 } 0 0x0d) ::
        Event.wr Win.bridge 0x24 n1 :: Event.rd Win.bridge 0x24 d1 ::
        Event.wr Win.bridge 0x20 (config_address { number := 1 } 0 0x0c) :: pre) ∧
      (byteLane n1 0 = 0x14 ∧ ∀ k : Nat, k ≠ 0 → byteLane n1 k = byteLane d1 k) ∧
      (byteLane n2 1 = 0xFF ∧ ∀ k : Nat, k ≠ 1 → byteLane n2 k = byteLane d2 k) ∧
      (n4 &&& 0xffff = (cmd &&& 0xffff) ||| 0x7 ∧
        ∀ k : Nat, 2 ≤ k → byteLane n4 k = byteLane d4 k)) ∧
    ¬ (((3 : Nat) = 0 ∨ (3 : Nat) = 1) ∧ (2 : Nat) = 0) ∧
    pcibios_map_irq (constHw 0) { bus := { number := 3 }, devfn := 8, irq := 5 } 2 1 [] =
      (0, Event.printk ("bus=0x" ++ printk_hex 3 ++ ", slot = 0x" ++ printk_hex 2 ++ "\n") ::
        []) ∧
    "bus=0x" ++ printk_hex 3 ++ ", slot = 0x" ++ printk_hex 2 ++ "\n" = "bus=0x3, slot = 0x2\n" :=
  ⟨by decide,
    (map_irq_housekeeping_by_location (constHw 0)
      { bus := { number := 1 }, devfn := 0, irq := 0 } 0 1 []).1 (by decide),
    by decide,
    (map_irq_housekeeping_by_location (constHw 0)
      { bus := { number := 3 }, devfn := 8, irq := 5 } 2 1 []).2 (by decide),
    by decide⟩

/-- C12 (code at the failing input): for the downstream endpoint (bus 1,
slot 0) whose device record holds `irq` = 9, `pcibios_map_irq` resolves and
returns 4, but its last three register accesses, the byte write at the
interrupt-line register (token 0x8001003c), put 9 into byte lane 0 of a dword
that read 0: the byte written is `dev->irq`, not the resolved number. -/
theorem interrupt_line_gets_device_record_irq :
    (pcibios_map_irq (constHw 0) { bus := { number := 1 }, devfn := 0, irq := 9 } 0 1 []).1 = 4 ∧
    (pcibios_map_irq (constHw 0) { bus := { number := 1 }, devfn := 0, irq := 9 } 0 1
      []).2.take 3 =
      [Event.wr Win.bridge 0x24 9, Event.rd Win.bridge 0x24 0,
        Event.wr Win.bridge 0x20 0x8001003c] ∧
    config_address { number := 1 } 0 PCI_INTERRUPT_LINE = 0x8001003c ∧
    byteLane 9 0 = 9 := by
  decide

/-! ## Exact behaviour of the busy-wait; the calibration write -/

theorem busy_iff_testBit (x : Nat) : u32 x &&& BUSY ≠ 0 ↔ (u32 x).testBit 31 = true := by
  have h := and_bit_eq_zero (u32 x) 31
  have hB : BUSY = 1 <<< 31 := by decide
  rw [hB]
  constructor
  · intro hne
    cases hb : (u32 x).testBit 31
    · exact absurd (h.mpr hb) hne
    · rfl
  · intro hb h0
    rw [h.mp h0] at hb
    exact Bool.noConfusion hb

/-- Exact behaviour of the busy-wait loop entered with `retry` at most
`WAITRETRY_MAX + 1`: it consumes busy reads until a clear one or until the
retry budget is spent. -/
theorem wait_loop_exact (hw : Hw) :
    ∀ (k retry : Nat) (t : Trace), retry + k = WAITRETRY_MAX + 1 →
      ∃ vs : List Nat, readsFrom hw vs t ∧ (∀ v ∈ vs, v.testBit 31 = true) ∧
        (((u32 (hw (busyPolls vs t) Win.pcie PCIEPHY0_CFG)).testBit 31 = false ∧
            vs.length ≤ k ∧
            wait_pciephy_busy_loop hw retry t =
              (0, Event.rd Win.pcie PCIEPHY0_CFG (u32 (hw (busyPolls vs t) Win.pcie PCIEPHY0_CFG)) ::
                busyPolls vs t)) ∨
          (vs.length = k + 1 ∧
            wait_pciephy_busy_loop hw retry t =
              (-1, Event.printk "PCIE-PHY retry failed.\n" :: busyPolls vs t))) := by
  intro k
  induction k with
  | zero =>
    intro retry t hk
    have hr : retry > WAITRETRY_MAX := by simp only [WAITRETRY_MAX] at *; omega
    by_cases hb : u32 (hw t Win.pcie 0x90) &&& BUSY ≠ 0
    · refine ⟨[u32 (hw t Win.pcie 0x90)], ⟨rfl, trivial⟩, ?_, Or.inr ⟨rfl, ?_⟩⟩
      · intro v hv
        rw [List.mem_singleton] at hv
        rw [hv]
        exact (busy_iff_testBit _).mp hb
      · rw [wait_loop_unfold, if_pos hb, if_pos hr]
        rfl
    · refine ⟨[], trivial, by simp, Or.inl ⟨?_, Nat.le_refl _, ?_⟩⟩
      · cases hc : (u32 (hw t Win.pcie 0x90)).testBit 31
        · exact hc
        · exact absurd ((busy_iff_testBit _).mpr hc) hb
      · rw [wait_loop_unfold, if_neg hb]
        rfl
  | succ k ih =>
    intro retry t hk
    have hr : ¬ retry > WAITRETRY_MAX := by simp only [WAITRETRY_MAX] at *; omega
    by_cases hb : u32 (hw t Win.pcie 0x90) &&& BUSY ≠ 0
    · obtain ⟨vs, hrf, hbusy, hcase⟩ := ih (retry + 1)
        (Event.mdelay 100 :: Event.rd Win.pcie 0x90 (u32 (hw t Win.pcie 0x90)) :: t) (by omega)
      refine ⟨u32 (hw t Win.pcie 0x90) :: vs, ⟨rfl, hrf⟩, ?_, ?_⟩
      · intro v hv
        rcases List.mem_cons.mp hv with h | h
        · rw [h]
          exact (busy_iff_testBit _).mp hb
        · exact hbusy v h
      · rw [wait_loop_unfold, if_pos hb, if_neg hr]
        rcases hcase with ⟨h1, h2, h3⟩ | ⟨h2, h3⟩
        · exact Or.inl ⟨h1, by simpa using h2, h3⟩
        · exact Or.inr ⟨by simpa using h2, h3⟩
    · refine ⟨[], trivial, by simp, Or.inl ⟨?_, Nat.zero_le _, ?_⟩⟩
      · cases hc : (u32 (hw t Win.pcie 0x90)).testBit 31
        · exact hc
        · exact absurd ((busy_iff_testBit _).mpr hc) hb
      · rw [wait_loop_unfold, if_neg hb]
        rfl

/-- On a device whose PHY control register always shows the busy flag, the
busy-wait ends with the failure log line on top of the history. -/
theorem wait_always_busy_trace (hw : Hw)
    (hbusy : ∀ t : Trace, (hw t Win.pcie PCIEPHY0_CFG).testBit 31 = true) (t : Trace) :
    ∃ rest : Trace, wait_pciephy_busy hw t =
      (-1, Event.printk "PCIE-PHY retry failed.\n" :: rest) := by
  obtain ⟨vs, _, _, hcase⟩ := wait_loop_exact hw 11 0 t rfl
  rcases hcase with ⟨h1, _, _⟩ | ⟨_, h3⟩
  · rw [u32_testBit _ _ (by norm_num), hbusy] at h1
    exact Bool.noConfusion h1
  · exact ⟨_, h3⟩

/-- The calibration write sits between the two busy-waits, whatever the first
one returned. -/
theorem pcie_phy_shape (hw : Hw) (addr val : Nat) (t : Trace) :
    ∃ post : List Event, (∀ e ∈ post, isPassive e = true) ∧
      pcie_phy hw addr val t =
        post ++ Event.mdelay 1 ::
          Event.wr Win.pcie 0x90 (u32 (WRITE_MODE ||| val ||| (addr <<< 8))) ::
          (wait_pciephy_busy hw t).2 := by
  obtain ⟨post, hpost, hp⟩ := wait_pciephy_busy_passive hw
    (mdelay 1 (pcie_w32 (WRITE_MODE ||| (val <<< DATA_SHIFT) ||| (addr <<< ADDR_SHIFT))
      PCIEPHY0_CFG (wait_pciephy_busy hw t).2))
  refine ⟨post, hp, ?_⟩
  simp only [pcie_phy]
  rw [hpost]
  rfl

/-- C13 (as stated, refuted): on a PHY control register that reads 0x80000000
forever, the busy-wait that opens `pcie_phy(0x0, 0x80)` exhausts its retries
(it returns -1 and logs the failure), and the control word 0x800080
(write-mode flag | 0x80 | 0x0 << 8) is written right after that log line. -/
theorem calibration_write_after_timeout :
    (wait_pciephy_busy (constHw 0x80000000) []).1 = -1 ∧
    (WRITE_MODE ||| 0x80 ||| (0x0 <<< 8) : Nat) = 0x800080 ∧
    ∃ (post : List Event) (rest : Trace),
      pcie_phy (constHw 0x80000000) 0x0 0x80 [] =
        post ++ Event.mdelay 1 :: Event.wr Win.pcie 0x90 0x800080 ::
          Event.printk "PCIE-PHY retry failed.\n" :: rest := by
  obtain ⟨rest, hrest⟩ := wait_always_busy_trace (constHw 0x80000000)
    (fun _ => show (0x80000000 : Nat).testBit 31 = true by decide) []
  obtain ⟨post, _, hshape⟩ := pcie_phy_shape (constHw 0x80000000) 0x0 0x80 []
  refine ⟨by rw [hrest], by decide, post, rest, ?_⟩
  rw [hshape, hrest]
  rfl

/-- C13 (amended): in `pcie_phy(addr, val)` the control word
(write-mode flag | val | addr << 8) is written to the PHY control register
exactly once, right after the first busy-wait returns and whatever that
busy-wait returned (flag seen clear, or retries exhausted); the busy-waits
themselves only read, delay and log. -/
theorem calibration_write_unconditional (hw : Hw) (addr val : Nat) (t : Trace) :
    ∃ pre post : List Event,
      (wait_pciephy_busy hw t).2 = pre ++ t ∧
      (∀ e ∈ pre, isPassive e = true) ∧ (∀ e ∈ post, isPassive e = true) ∧
      pcie_phy hw addr val t =
        post ++ Event.mdelay 1 ::
          Event.wr Win.pcie 0x90 (u32 (WRITE_MODE ||| val ||| (addr <<< 8))) :: (pre ++ t) := by
  obtain ⟨pre, hpre, hp1⟩ := wait_pciephy_busy_passive hw t
  obtain ⟨post, hp2, hshape⟩ := pcie_phy_shape hw addr val t
  exact ⟨pre, post, hpre, hp1, hp2, by rw [hshape, hpre]⟩

/-- C16: for every device model and history, `wait_pciephy_busy` terminates,
and there is a list `vs` of busy values (bit 31 set), the successive values
the device returned, each followed by one 100-unit delay, such that either the
next value read has bit 31 clear, no delay follows it, the result is 0 and at
most `WAITRETRY_MAX + 2` = 12 reads were made in all, or `vs` has exactly 12
values, the failure is logged and the result is -1.  So -1 is returned exactly
when all 12 reads were busy. -/
theorem busy_wait_exact (hw : Hw) (t : Trace) :
    WAITRETRY_MAX + 2 = 12 ∧
    ∃ vs : List Nat, readsFrom hw vs t ∧ (∀ v ∈ vs, v.testBit 31 = true) ∧
      (((u32 (hw (busyPolls vs t) Win.pcie PCIEPHY0_CFG)).testBit 31 = false ∧
          vs.length + 1 ≤ 12 ∧
          wait_pciephy_busy hw t =
            (0, Event.rd Win.pcie PCIEPHY0_CFG (u32 (hw (busyPolls vs t) Win.pcie PCIEPHY0_CFG)) ::
              busyPolls vs t)) ∨
        (vs.length = 12 ∧
          wait_pciephy_busy hw t =
            (-1, Event.printk "PCIE-PHY retry failed.\n" :: busyPolls vs t))) := by
  refine ⟨rfl, ?_⟩
  obtain ⟨vs, hrf, hbusy, hcase⟩ := wait_loop_exact hw 11 0 t rfl
  refine ⟨vs, hrf, hbusy, ?_⟩
  rcases hcase with ⟨h1, h2, h3⟩ | ⟨h2, h3⟩
  · exact Or.inl ⟨h1, by omega, h3⟩
  · exact Or.inr ⟨h2, h3⟩

/-! ## The PCICFG register through the bring-up -/

theorem pcicfgView_cons (e : Event) (t : Trace) :
    pcicfgView (e :: t) = if isPcicfgOrReset e = true then e :: pcicfgView t else pcicfgView t := by
  simp only [pcicfgView, List.filter_cons]

/-- The busy-wait reads only the PHY control register: it shows neither in the
`PCICFG` accesses nor in the reset operations. -/
theorem pcicfgView_wait_loop (hw : Hw) :
    ∀ (k retry : Nat) (t : Trace), WAITRETRY_MAX + 1 - retry = k →
      pcicfgView (wait_pciephy_busy_loop hw retry t).2 = pcicfgView t := by
  intro k
  induction k with
  | zero =>
    intro retry t hk
    have hr : retry > WAITRETRY_MAX := by simp only [WAITRETRY_MAX] at *; omega
    rw [wait_loop_unfold]
    split_ifs <;> simp [pcicfgView_cons, isPcicfgOrReset, RALINK_PCI_PCICFG_ADDR]
  | succ k ih =>
    intro retry t hk
    rw [wait_loop_unfold]
    split_ifs with hb hr
    · simp [pcicfgView_cons, isPcicfgOrReset, RALINK_PCI_PCICFG_ADDR]
    · rw [ih (retry + 1) _ (by simp only [WAITRETRY_MAX] at *; omega)]
      simp [pcicfgView_cons, isPcicfgOrReset, RALINK_PCI_PCICFG_ADDR]
    · simp [pcicfgView_cons, isPcicfgOrReset, RALINK_PCI_PCICFG_ADDR]

theorem pcicfgView_pcie_phy (hw : Hw) (addr val : Nat) (t : Trace) :
    pcicfgView (pcie_phy hw addr val t) = pcicfgView t := by
  simp only [pcie_phy, wait_pciephy_busy, mdelay, pcie_w32, iowrite32]
  rw [pcicfgView_wait_loop hw _ 0 _ rfl]
  simp only [pcicfgView_cons, isPcicfgOrReset, RALINK_PCI_PCICFG_ADDR, PCIEPHY0_CFG]
  simp only [Nat.reduceEqDiff, decide_False, Bool.false_eq_true, if_false]
  exact pcicfgView_wait_loop hw _ 0 _ rfl

theorem pcicfgView_sysc_m32 (hw : Hw) (clr set reg : Nat) (t : Trace) :
    pcicfgView (rt_sysc_m32 hw clr set reg t) = pcicfgView t := by
  simp [rt_sysc_m32, rt_sysc_r32, rt_sysc_w32, ioread32, iowrite32, pcicfgView_cons,
    isPcicfgOrReset]

/-- A bitmask read-modify-write of `PCICFG` shows as one read and one write. -/
theorem pcicfgView_pcicfg_m32 (hw : Hw) (clr set : Nat) (t : Trace) :
    pcicfgView (pcie_m32 hw clr set RALINK_PCI_PCICFG_ADDR t) =
      Event.wr Win.pcie 0x00 (u32 ((u32 (hw t Win.pcie 0x00) &&& not32 clr) ||| u32 set)) ::
        Event.rd Win.pcie 0x00 (u32 (hw t Win.pcie 0x00)) :: pcicfgView t := by
  simp [pcie_m32, pcie_r32, pcie_w32, ioread32, iowrite32, RALINK_PCI_PCICFG_ADDR,
    pcicfgView_cons, isPcicfgOrReset]

theorem pcicfgView_probe_calibrate (hw : Hw) (t : Trace) :
    ∃ t1 : Trace, pcicfgView (probe_calibrate hw t) =
      Event.reset_deassert :: Event.reset_assert ::
        Event.wr Win.pcie 0x00 (u32 ((u32 (hw t1 Win.pcie 0x00) &&& not32 0) ||| u32 (BIT 1))) ::
        Event.rd Win.pcie 0x00 (u32 (hw t1 Win.pcie 0x00)) :: pcicfgView t := by
  refine ⟨rt_sysc_m32 hw (0x3 <<< 16) 0 RALINK_GPIOMODE
    (pcie_phy hw 0x68 0xB4 (pcie_phy hw 0x1 0x04 (pcie_phy hw 0x0 0x80 t))), ?_⟩
  simp only [probe_calibrate, mdelay, reset_control_assert, reset_control_deassert,
    pcicfgView_cons, isPcicfgOrReset, pcicfgView_sysc_m32, pcicfgView_pcicfg_m32,
    pcicfgView_pcie_phy, Bool.false_eq_true, if_false, if_true]

theorem pcicfgView_probe_pll_unlock (hw : Hw) (t : Trace) :
    pcicfgView (probe_pll_unlock hw t) = Event.reset_assert :: pcicfgView t := by
  simp only [probe_pll_unlock, printk, reset_control_assert,
    pcicfgView_cons, isPcicfgOrReset, pcicfgView_sysc_m32, Bool.false_eq_true, if_false, if_true]

theorem pcicfgView_probe_clock_gen (hw : Hw) (t : Trace) :
    ∃ t2 : Trace, pcicfgView (probe_clock_gen hw t) =
      Event.wr Win.pcie 0x00 (u32 ((u32 (hw t2 Win.pcie 0x00) &&& not32 (BIT 1)) ||| u32 0)) ::
        Event.rd Win.pcie 0x00 (u32 (hw t2 Win.pcie 0x00)) ::
        Event.reset_deassert :: Event.reset_assert :: pcicfgView t := by
  refine ⟨Event.reset_deassert :: Event.mdelay 50 ::
    rt_sysc_m32 hw (not32 0x80ffffff) (0xa <<< 24) RALINK_PCIE_CLK_GEN1
      (rt_sysc_m32 hw (not32 0x7fffffff) 0x80000000 RALINK_PCIE_CLK_GEN
        (rt_sysc_m32 hw 0x30 (2 <<< 4) RALINK_SYSCFG1
          (Event.reset_assert :: Event.mdelay 100 ::
            rt_sysc_m32 hw ((0x1 <<< 18) ||| (0x1 <<< 17)) ((0x1 <<< 19) ||| (0x1 <<< 31))
              PPLL_DRV t))), ?_⟩
  simp only [probe_clock_gen, mdelay, reset_control_assert, reset_control_deassert,
    pcicfgView_cons, isPcicfgOrReset, pcicfgView_sysc_m32, pcicfgView_pcicfg_m32,
    Bool.false_eq_true, if_false, if_true]

theorem pcicfgView_probe_no_card (hw : Hw) (t : Trace) :
    pcicfgView (probe_no_card hw t) = Event.reset_assert :: pcicfgView t := by
  simp only [probe_no_card, printk, reset_control_assert,
    pcicfgView_cons, isPcicfgOrReset, pcicfgView_sysc_m32, Bool.false_eq_true, if_false, if_true]

theorem pcicfgView_probe_windows (hw : Hw) (t : Trace) :
    pcicfgView (probe_windows hw t) = pcicfgView t := by
  simp [probe_windows, register_pci_controller, bridge_w32, pcie_w32, pcie_m32, pcie_r32,
    ioread32, iowrite32, pcicfgView_cons, isPcicfgOrReset, RALINK_PCI_PCICFG_ADDR,
    RALINK_PCI0_BAR0SETUP_ADDR, RALINK_PCI0_IMBASEBAR0_ADDR, RALINK_PCI0_ID, RALINK_PCI0_CLASS,
    RALINK_PCI0_SUBID, RALINK_PCI_PCIMSK_ADDR]

theorem pcicfgView_ioread32 (hw : Hw) (w : Win) (reg : Nat) (t : Trace)
    (h : w ≠ Win.pcie ∨ reg ≠ 0) :
    pcicfgView (ioread32 hw w reg t).2 = pcicfgView t := by
  rw [ioread32, pcicfgView_cons]
  cases w <;> simp_all [isPcicfgOrReset, RALINK_PCI_PCICFG_ADDR]

theorem testBit_BIT (n i : Nat) : (BIT n).testBit i = decide (n = i) := by
  rw [BIT, Nat.one_shiftLeft, Nat.testBit_two_pow]

/-- The update `pcie_m32(0, BIT(1), reg)` sets bit 1 and keeps every other
bit of the value read. -/
theorem m32_set_bit1 (x : Nat) :
    (u32 ((u32 x &&& not32 0) ||| u32 (BIT 1))).testBit 1 = true ∧
    ∀ i : Nat, i ≠ 1 →
      (u32 ((u32 x &&& not32 0) ||| u32 (BIT 1))).testBit i = (u32 x).testBit i := by
  constructor
  · rw [m32_value_testBit, testBit_BIT]
    simp
  · intro i hi
    rw [m32_value_testBit, testBit_BIT, u32, Nat.testBit_mod_two_pow]
    have h1 : ¬ (1 = i) := fun h => hi h.symm
    by_cases h32 : i < 32 <;> simp [h32, h1]

/-- The update `pcie_m32(BIT(1), 0, reg)` clears bit 1 and keeps every other
bit of the value read. -/
theorem m32_clear_bit1 (x : Nat) :
    (u32 ((u32 x &&& not32 (BIT 1)) ||| u32 0)).testBit 1 = false ∧
    ∀ i : Nat, i ≠ 1 →
      (u32 ((u32 x &&& not32 (BIT 1)) ||| u32 0)).testBit i = (u32 x).testBit i := by
  constructor
  · rw [m32_value_testBit, testBit_BIT]
    simp
  · intro i hi
    rw [m32_value_testBit, testBit_BIT, u32, Nat.testBit_mod_two_pow]
    have h1 : ¬ (1 = i) := fun h => hi h.symm
    by_cases h32 : i < 32 <;> simp [h32, h1]

/-- The `PCICFG` accesses and reset operations of a whole bring-up, newest
first, on each of its three paths. -/
theorem pcicfgView_probe (hw : Hw) (pdev : platform_device) (t : Trace) (hres : acquired pdev) :
    ∃ t1 t2 : Trace,
      pcicfgView (mt7620a_pci_probe hw pdev t).2 =
        (if (pll_status hw t).testBit 23 = false then [Event.reset_assert]
         else
          (if (link_status hw t).testBit 0 = false then [Event.reset_assert] else []) ++
          [Event.wr Win.pcie 0x00 (u32 ((u32 (hw t2 Win.pcie 0x00) &&& not32 (BIT 1)) ||| u32 0)),
            Event.rd Win.pcie 0x00 (u32 (hw t2 Win.pcie 0x00)),
            Event.reset_deassert, Event.reset_assert]) ++
        [Event.reset_deassert, Event.reset_assert,
          Event.wr Win.pcie 0x00 (u32 ((u32 (hw t1 Win.pcie 0x00) &&& not32 0) ||| u32 (BIT 1))),
          Event.rd Win.pcie 0x00 (u32 (hw t1 Win.pcie 0x00))] ++
        pcicfgView t := by
  obtain ⟨t1, h1⟩ := pcicfgView_probe_calibrate hw t
  obtain ⟨t2, h2⟩ := pcicfgView_probe_clock_gen hw
    (rt_sysc_r32 hw PPLL_CFG1 (probe_calibrate hw t)).2
  have hpllrd : pcicfgView (rt_sysc_r32 hw PPLL_CFG1 (probe_calibrate hw t)).2 =
      pcicfgView (probe_calibrate hw t) :=
    pcicfgView_ioread32 hw Win.sysc PPLL_CFG1 _ (Or.inl (by decide))
  have hlinkrd : pcicfgView (pcie_r32 hw RALINK_PCI0_STATUS
      (probe_clock_gen hw (rt_sysc_r32 hw PPLL_CFG1 (probe_calibrate hw t)).2)).2 =
      pcicfgView (probe_clock_gen hw (rt_sysc_r32 hw PPLL_CFG1 (probe_calibrate hw t)).2) :=
    pcicfgView_ioread32 hw Win.pcie RALINK_PCI0_STATUS _ (Or.inr (by decide))
  refine ⟨t1, t2, ?_⟩
  by_cases hpll : (pll_status hw t).testBit 23 = false
  · rw [probe_unlocked_eq hw pdev t hres hpll, if_pos hpll]
    show pcicfgView (probe_pll_unlock hw _) = _
    rw [pcicfgView_probe_pll_unlock, hpllrd, h1]
    rfl
  · have hpll1 : (pll_status hw t).testBit 23 = true := by
      cases h : (pll_status hw t).testBit 23
      · exact absurd h hpll
      · rfl
    rw [probe_locked_eq hw pdev t hres hpll1, if_neg hpll]
    show pcicfgView (probe_windows hw _) = _
    rw [pcicfgView_probe_windows]
    by_cases hlink : (link_status hw t).testBit 0 = false
    · rw [if_pos hlink, if_pos hlink, pcicfgView_probe_no_card, hlinkrd, h2, hpllrd, h1]
      rfl
    · rw [if_neg hlink, if_neg hlink, hlinkrd, h2, hpllrd, h1]
      rfl

/-- C14 (as stated, refuted): on a device every register of which reads 0,
probed from the empty history with all resources acquired, the first update
of `PCICFG` reads 0 and writes back 2: before the reset line is first
asserted, bit 1 is set, not cleared. -/
theorem pcicfg_bit1_set_in_step1 :
    pcicfgView (mt7620a_pci_probe (constHw 0) okDev []).2 =
      [Event.reset_assert, Event.reset_deassert, Event.reset_assert,
        Event.wr Win.pcie 0x00 2, Event.rd Win.pcie 0x00 0] ∧
    (2 : Nat).testBit 1 = true ∧ (0 : Nat).testBit 1 = false := by
  obtain ⟨t1, t2, h⟩ := pcicfgView_probe (constHw 0) okDev [] ⟨rfl, rfl, rfl⟩
  have hpll : (pll_status (constHw 0) []).testBit 23 = false := by decide
  rw [if_pos hpll] at h
  have hv : constHw 0 t1 Win.pcie 0x00 = 0 := rfl
  rw [hv] at h
  refine ⟨h.trans ?_, by decide, by decide⟩
  decide

/-- C14 (amended): for every device model and history in which resource
acquisition succeeds, `mt7620a_pci_probe` updates `PCICFG` (PCIe offset 0x00)
first in step 1, before the reset line is first asserted, and that update
sets bit 1; when the PLL has locked it updates the register a second time in
step 4, after the reset deassert that ends the second reset pulse, and that
update clears bit 1.  Each update writes back the value it has just read with
every bit other than bit 1 unchanged, and the bring-up makes no other access
to the register.  The list gives the `PCICFG` accesses and the reset
operations of the whole probe, newest first. -/
theorem pcicfg_bit1_set_then_cleared (hw : Hw) (pdev : platform_device) (t : Trace)
    (hres : acquired pdev) :
    ∃ v1 w1 v2 w2 : Nat,
      pcicfgView (mt7620a_pci_probe hw pdev t).2 =
        (if (pll_status hw t).testBit 23 = false then [Event.reset_assert]
         else
          (if (link_status hw t).testBit 0 = false then [Event.reset_assert] else []) ++
          [Event.wr Win.pcie 0x00 w2, Event.rd Win.pcie 0x00 v2,
            Event.reset_deassert, Event.reset_assert]) ++
        [Event.reset_deassert, Event.reset_assert,
          Event.wr Win.pcie 0x00 w1, Event.rd Win.pcie 0x00 v1] ++
        pcicfgView t ∧
      w1.testBit 1 = true ∧ w2.testBit 1 = false ∧
      ∀ i : Nat, i ≠ 1 → w1.testBit i = v1.testBit i ∧ w2.testBit i = v2.testBit i := by
  obtain ⟨t1, t2, h⟩ := pcicfgView_probe hw pdev t hres
  obtain ⟨s1, s2⟩ := m32_set_bit1 (hw t1 Win.pcie 0x00)
  obtain ⟨c1, c2⟩ := m32_clear_bit1 (hw t2 Win.pcie 0x00)
  exact ⟨_, _, _, _, h, s1, c1, fun i hi => ⟨s2 i hi, c2 i hi⟩⟩

/-- C14 witness: a device every register of which reads 0x00800001 forever
(PLL locked, link up), probed from the empty history. -/
theorem pcicfg_bit1_set_then_cleared_witness :
    acquired okDev ∧
    ∃ v1 w1 v2 w2 : Nat,
      pcicfgView (mt7620a_pci_probe (constHw 0x00800001) okDev []).2 =
        (if (pll_status (constHw 0x00800001) []).testBit 23 = false then [Event.reset_assert]
         else
          (if (link_status (constHw 0x00800001) []).testBit 0 = false then [Event.reset_assert]
            else []) ++
          [Event.wr Win.pcie 0x00 w2, Event.rd Win.pcie 0x00 v2,
            Event.reset_deassert, Event.reset_assert]) ++
        [Event.reset_deassert, Event.reset_assert,
          Event.wr Win.pcie 0x00 w1, Event.rd Win.pcie 0x00 v1] ++
        pcicfgView [] ∧
      w1.testBit 1 = true ∧ w2.testBit 1 = false ∧
      ∀ i : Nat, i ≠ 1 → w1.testBit i = v1.testBit i ∧ w2.testBit i = v2.testBit i :=
  ⟨⟨rfl, rfl, rfl⟩, pcicfg_bit1_set_then_cleared (constHw 0x00800001) okDev [] ⟨rfl, rfl, rfl⟩⟩

/-! ## Address tokens do not alias -/

theorem low_field_eq (offset : Nat) : offset &&& 0xFC = 2 ^ 2 * (offset / 4 % 64) := by
  have h : offset &&& 0xFC = ((offset >>> 2) &&& 0x3F) <<< 2 := by
    apply Nat.eq_of_testBit_eq
    intro i
    rw [show (0xFC : Nat) = 0x3F <<< 2 by decide, Nat.testBit_and, Nat.testBit_shiftLeft,
      Nat.testBit_shiftLeft, Nat.testBit_and, Nat.testBit_shiftRight]
    by_cases hi : i ≥ 2
    · have h2 : 2 + (i - 2) = i := by omega
      simp [hi, h2]
    · simp [hi]
  rw [h, Nat.shiftLeft_eq, Nat.shiftRight_eq_div_pow,
    show (0x3F : Nat) = 2 ^ 6 - 1 by decide, Nat.and_pow_two_sub_one_eq_mod]
  simp [Nat.mul_comm]

/-- The address token as a sum of its fields. -/
theorem addressToken_arith (bus devfn offset : Nat) (hb : bus < 256) :
    addressToken bus devfn offset =
      2 ^ 31 + (2 ^ 24 * (offset / 256 % 16) + (2 ^ 16 * bus +
        (2 ^ 11 * (devfn / 8 % 32) + (2 ^ 8 * (devfn % 8) + 2 ^ 2 * (offset / 4 % 64))))) := by
  have hA : (offset >>> 8) &&& 0xF = offset / 256 % 16 := by
    rw [Nat.shiftRight_eq_div_pow, show (0xF : Nat) = 2 ^ 4 - 1 by decide,
      Nat.and_pow_two_sub_one_eq_mod]
  have hS : (devfn >>> 3) &&& 0x1F = devfn / 8 % 32 := by
    rw [Nat.shiftRight_eq_div_pow, show (0x1F : Nat) = 2 ^ 5 - 1 by decide,
      Nat.and_pow_two_sub_one_eq_mod]
  have hF : devfn &&& 7 = devfn % 8 := by
    rw [show (7 : Nat) = 2 ^ 3 - 1 by decide, Nat.and_pow_two_sub_one_eq_mod]
  have hA4 : offset / 256 % 16 < 16 := Nat.mod_lt _ (by norm_num)
  have hS5 : devfn / 8 % 32 < 32 := Nat.mod_lt _ (by norm_num)
  have hF3 : devfn % 8 < 8 := Nat.mod_lt _ (by norm_num)
  have hL6 : offset / 4 % 64 < 64 := Nat.mod_lt _ (by norm_num)
  unfold addressToken
  rw [hA, hS, hF, low_field_eq, Nat.shiftLeft_eq, Nat.shiftLeft_eq, Nat.shiftLeft_eq,
    Nat.shiftLeft_eq, Nat.mul_comm _ (2 ^ 24), Nat.mul_comm _ (2 ^ 16), Nat.mul_comm _ (2 ^ 11),
    Nat.mul_comm _ (2 ^ 8), Nat.lor_comm _ 0x80000000, Nat.or_assoc, Nat.or_assoc, Nat.or_assoc,
    show (0x80000000 : Nat) = 2 ^ 31 * 1 by norm_num,
    ← Nat.mul_add_lt_is_or (by omega) (devfn % 8),
    ← Nat.mul_add_lt_is_or (by omega) (devfn / 8 % 32),
    ← Nat.mul_add_lt_is_or (by omega) bus,
    ← Nat.mul_add_lt_is_or (by omega) (offset / 256 % 16),
    ← Nat.mul_add_lt_is_or (by omega) 1, Nat.mul_one]

/-- Fixed bits of every address token: the enable bit is set, the two low
bits and the three bits below the enable bit are clear. -/
theorem addressToken_bits (bus devfn offset : Nat) (hb : bus < 256) :
    (addressToken bus devfn offset).testBit 31 = true ∧
    (addressToken bus devfn offset).testBit 0 = false ∧
    (addressToken bus devfn offset).testBit 1 = false ∧
    (addressToken bus devfn offset).testBit 28 = false ∧
    (addressToken bus devfn offset).testBit 29 = false ∧
    (addressToken bus devfn offset).testBit 30 = false := by
  rw [addressToken_arith bus devfn offset hb]
  have hlt : 2 ^ 24 * (offset / 256 % 16) + (2 ^ 16 * bus +
      (2 ^ 11 * (devfn / 8 % 32) + (2 ^ 8 * (devfn % 8) + 2 ^ 2 * (offset / 4 % 64)))) <
      2 ^ 28 := by omega
  have hmod : (2 ^ 24 * (offset / 256 % 16) + (2 ^ 16 * bus +
      (2 ^ 11 * (devfn / 8 % 32) + (2 ^ 8 * (devfn % 8) + 2 ^ 2 * (offset / 4 % 64))))) % 4 =
      0 := by omega
  generalize 2 ^ 24 * (offset / 256 % 16) + (2 ^ 16 * bus +
      (2 ^ 11 * (devfn / 8 % 32) + (2 ^ 8 * (devfn % 8) + 2 ^ 2 * (offset / 4 % 64)))) = r
    at hlt hmod
  simp only [Nat.testBit_to_div_mod, decide_eq_true_eq, decide_eq_false_iff_not]
  refine ⟨?_, ?_, ?_, ?_, ?_, ?_⟩ <;> omega

/-- C15: for all bus numbers below 256, devfn values below 256 and offsets in
0..4095, the address tokens the access functions form for two inputs are
equal if and only if the inputs have the same bus, the same devfn and the same
dword index `offset >> 2`; every token has bit 31 set and bits 0, 1, 28, 29
and 30 clear. -/
theorem address_token_no_alias (b1 b2 : pci_bus) (d1 d2 o1 o2 : Nat)
    (hb1 : b1.number < 256) (hb2 : b2.number < 256) (hd1 : d1 < 256) (hd2 : d2 < 256)
    (ho1 : o1 < 4096) (ho2 : o2 < 4096) :
    (config_address b1 d1 o1 = config_address b2 d2 o2 ↔
      (b1.number = b2.number ∧ d1 = d2 ∧ o1 >>> 2 = o2 >>> 2)) ∧
    (config_address b1 d1 o1).testBit 31 = true ∧
    (config_address b1 d1 o1).testBit 0 = false ∧
    (config_address b1 d1 o1).testBit 1 = false ∧
    (config_address b1 d1 o1).testBit 28 = false ∧
    (config_address b1 d1 o1).testBit 29 = false ∧
    (config_address b1 d1 o1).testBit 30 = false := by
  refine ⟨?_, ?_⟩
  · rw [config_address_eq b1 d1 o1 hb1, config_address_eq b2 d2 o2 hb2,
      addressToken_arith b1.number d1 o1 hb1, addressToken_arith b2.number d2 o2 hb2,
      Nat.shiftRight_eq_div_pow, Nat.shiftRight_eq_div_pow]
    constructor
    · intro h
      refine ⟨?_, ?_, ?_⟩ <;> omega
    · rintro ⟨h1, h2, h3⟩
      rw [h1, h2]
      omega
  · rw [config_address_eq b1 d1 o1 hb1]
    exact addressToken_bits b1.number d1 o1 hb1

/-- C15 witness: offsets 0x144 and 0x147 of bus 1, devfn 0x0b share the dword
index 0x51 and the token. -/
theorem address_token_no_alias_witness :
    (1 : Nat) < 256 ∧ (0x0b : Nat) < 256 ∧ (0x144 : Nat) < 4096 ∧ (0x147 : Nat) < 4096 ∧
    (config_address { number := 1 } 0x0b 0x144 = config_address { number := 1 } 0x0b 0x147 ↔
      ((1 : Nat) = 1 ∧ (0x0b : Nat) = 0x0b ∧ 0x144 >>> 2 = 0x147 >>> 2)) ∧
    (config_address { number := 1 } 0x0b 0x144).testBit 31 = true ∧
    (config_address { number := 1 } 0x0b 0x144).testBit 0 = false ∧
    (config_address { number := 1 } 0x0b 0x144).testBit 1 = false ∧
    (config_address { number := 1 } 0x0b 0x144).testBit 28 = false ∧
    (config_address { number := 1 } 0x0b 0x144).testBit 29 = false ∧
    (config_address { number := 1 } 0x0b 0x144).testBit 30 = false :=
  ⟨by decide, by decide, by decide, by decide,
    address_token_no_alias { number := 1 } { number := 1 } 0x0b 0x0b 0x144 0x147
      (by decide) (by decide) (by decide) (by decide) (by decide) (by decide)⟩

end MT7620A
